import Mathlib

/-!
Verification of the Flight_Bot conversation engine against its design
specification. Each Python unit named by a claim is embedded shallowly as an
executable Lean definition, translated from the source files under `src/`:
`services/flight_service.py`, `services/ticket_parser_service.py`,
`services/intent_service.py`, `models/conversation.py`, `models/flight_data.py`,
`models/ticket_storage.py`, `services/dialogue_manager.py` and
`services/llm_dialogue_manager.py`. External collaborators (the fuzzy city
matcher over the reference city table, the NLU oracle, the messaging provider,
the random generator and the clock) enter as explicit parameters, exactly at
the call sites where the Python code consults them.
-/

namespace FlightBot

/-! ### Python string primitives -/

/-- Boolean prefix test on character lists. -/
def isPrefixL : List Char → List Char → Bool
  | [], _ => true
  | _ :: _, [] => false
  | a :: as, b :: bs => a == b && isPrefixL as bs

/-- Substring search on character lists: true when `needle` occurs contiguously. -/
def isSubL (needle : List Char) : List Char → Bool
  | [] => needle.isEmpty
  | c :: cs => isPrefixL needle (c :: cs) || isSubL needle cs

/-- Models the Python membership test `needle in hay` on strings. -/
def strContains (hay needle : String) : Bool :=
  isSubL needle.toList hay.toList

/-- Models Python `str.lower()` (the repository only lowercases ASCII text). -/
def pyLower (s : String) : String := String.mk (s.toList.map Char.toLower)

/-- Models Python `str.upper()`. -/
def pyUpper (s : String) : String := String.mk (s.toList.map Char.toUpper)

/-- The whitespace class of Python `str.strip()` and of the
regular-expression token `\s` (ASCII). -/
def isSpaceChar (c : Char) : Bool :=
  c == ' ' || c == '\t' || c == '\n' || c == '\r' || c == '\x0b' || c == '\x0c'

/-- Models Python `str.strip()`: whitespace removed from both ends. -/
def pyStrip (s : String) : String :=
  String.mk (((s.toList.dropWhile isSpaceChar).reverse.dropWhile isSpaceChar).reverse)


/-! ### Flight data (`models/flight_data.py`, `Flight`) and flight search
(`services/flight_service.py`, `FlightService.search_flights`) -/

/-- The `Flight` dataclass of `models/flight_data.py`. -/
structure FlightB where
  flight_id : String
  airline : String
  origin : String
  destination : String
  departure_time : String
  arrival_time : String
  price : Int
  currency : String
  duration : String
  aircraft : String
deriving DecidableEq, Repr, Inhabited

/-- The route filter of `search_flights`: an inventory row is kept when its
origin and destination equal the uppercased requested codes. -/
def routeMatches (origin destination : String) (f : FlightB) : Bool :=
  f.origin == pyUpper origin && f.destination == pyUpper destination

/-- The per-flight price adjustment of `search_flights` lines 52-58:
`price * adults`, plus `price * 0.75 * children` when `children > 0`, plus
`price * 0.1 * infants` when `infants > 0`, truncated toward zero by
`int(...)`. The exact rational sum is carried over the common denominator 20
(`0.75 = 15/20`, `0.1 = 2/20`), and `Int.tdiv` by 20 is the truncation toward
zero of that rational. The source computes with binary floats, a difference
no claim observes. -/
def adjustedPrice (price : Int) (adults children infants : Int) : Int :=
  let base20 : Int := price * adults * 20
  let withChildren20 : Int :=
    if children > 0 then base20 + price * 15 * children else base20
  let total20 : Int :=
    if infants > 0 then withChildren20 + price * 2 * infants else withChildren20
  Int.tdiv total20 20

/-- In-place price mutation of one flight, as in `search_flights` lines 52-58. -/
def adjustFlight (adults children infants : Int) (f : FlightB) : FlightB :=
  { f with price := adjustedPrice f.price adults children infants }

/-- The comparison key of `available_flights.sort(key=lambda x: x.price)`. -/
def flightLe (a b : FlightB) : Prop := a.price ≤ b.price

instance : DecidableRel flightLe :=
  fun a b => inferInstanceAs (Decidable (a.price ≤ b.price))

instance : IsTotal FlightB flightLe := ⟨fun a b => le_total a.price b.price⟩

instance : IsTrans FlightB flightLe := ⟨fun _ _ _ h1 h2 => le_trans h1 h2⟩

/-- `FlightService.search_flights`: filter the inventory by uppercased route,
adjust each price for the passenger mix, and sort ascending by price. The
`date` argument is accepted and ignored, as in the source. Python's stable
`list.sort` is embedded as insertion sort over the same total preorder. -/
def search_flights (inventory : List FlightB) (origin destination : String)
    (date : String) (adults children infants : Int) : List FlightB :=
  List.insertionSort flightLe
    ((inventory.filter (routeMatches origin destination)).map
      (adjustFlight adults children infants))

/-! ### Price comparison (`services/ticket_parser_service.py`,
`TicketParserService.compare_prices_with_system`) -/

/-- The `flight_details` payload of a parsed ticket, fields as prompted for in
`_analyze_ticket_with_llm` and read by `compare_prices_with_system`. -/
structure FlightDetails where
  airline : String
  flight_number : String
  origin_city : String
  origin_airport : String
  destination_city : String
  destination_airport : String
  departure_date : String
  departure_time : String
  arrival_time : String
  class_of_service : String
  passenger_name : String
  booking_reference : String
  ticket_price : String
  ticket_price_numeric : Int
  currency : String
deriving DecidableEq, Repr, Inhabited

/-- A parsed-ticket record as consumed by the price comparison and the
dialogue managers. -/
structure TicketInfo where
  success : Bool
  flight_details : FlightDetails
deriving DecidableEq, Repr, Inhabited

/-- One entry of the `comparable_flights` list built by
`compare_prices_with_system`. -/
structure ComparableFlight where
  airline : String
  flight_number : String
  price : Int
  is_same_airline : Bool
deriving DecidableEq, Repr

/-- The three shapes of dictionary `compare_prices_with_system` returns: the
parsing-failed error, the route-unavailable suggestion payload, and the
numeric comparison. -/
inductive PriceComparisonResult
  | parse_error (error : String)
  | unavailable (message suggestion : String)
      (available_origins popular_destinations : List String)
  | available (ticket_price : Int) (currency : String) (best_system_price : Int)
      (price_difference : Int) (savings_percentage : Rat)
      (comparable_flights : List ComparableFlight) (recommendation : String)
deriving DecidableEq, Repr

/-- `min(flight.price for flight in system_flights)`; the empty case is
unreachable behind the emptiness guard of the caller. -/
def bestSystemPrice : List FlightB → Int
  | [] => 0
  | f :: fs => fs.foldl (fun m g => min m g.price) f.price

/-- The recommendation expression of `compare_prices_with_system` line 218,
with Python's conditional chaining made explicit:
`"cheaper" if d > 0 else ("similar" if abs(d) < 500 else "expensive")`. -/
def recommendationTag (price_difference : Int) : String :=
  if price_difference > 0 then "cheaper"
  else if |price_difference| < 500 then "similar"
  else "expensive"

/-- `TicketParserService.compare_prices_with_system`. The savings percentage
is embedded as the exact rational `d / tp * 100`; the source additionally
rounds it to one decimal with binary floats, which no claim observes. -/
def compare_prices_with_system (inventory : List FlightB) (ticket_info : TicketInfo)
    (origin destination date : String) : PriceComparisonResult :=
  if !ticket_info.success then
    .parse_error "Cannot compare prices - ticket parsing failed"
  else
    let system_flights := search_flights inventory origin destination date 1 0 0
    match system_flights with
    | [] =>
      .unavailable
        ("No flights found in our system for route " ++ origin ++ " → " ++ destination)
        ("We currently don't offer flights on the " ++ origin ++ " → " ++ destination ++
          " route. You can check our available routes or search for alternative connections.")
        ["DEL", "BOM", "DXB", "HYD", "LHR", "JAI"]
        ["DXB", "LHR", "BLR", "DEL", "SIN", "BKK", "JAI", "HYD"]
    | _ =>
      let ticket_price := ticket_info.flight_details.ticket_price_numeric
      let airline := ticket_info.flight_details.airline
      let comparable_flights := system_flights.map (fun f =>
        ComparableFlight.mk f.airline f.flight_id f.price
          (strContains (pyLower f.airline) (pyLower airline)))
      let best := bestSystemPrice system_flights
      let d := ticket_price - best
      .available ticket_price ticket_info.flight_details.currency best d
        (if ticket_price > 0 then ((d : Rat) / (ticket_price : Rat)) * 100 else 0)
        comparable_flights (recommendationTag d)

/-- The recommendation tag of a numeric comparison result. -/
def PriceComparisonResult.recommendationOf : PriceComparisonResult → Option String
  | .available _ _ _ _ _ _ r => some r
  | _ => none

/-- The price difference of a numeric comparison result. -/
def PriceComparisonResult.differenceOf : PriceComparisonResult → Option Int
  | .available _ _ _ d _ _ _ => some d
  | _ => none

/-! ### Date extraction (`services/intent_service.py`,
`IntentService.extract_date`) -/

/-- A calendar date as Python's `datetime` carries it (year, month, day). -/
structure PyDate where
  year : Nat
  month : Nat
  day : Nat
deriving DecidableEq, Repr

/-- Strict comparison of dates, as Python compares `date` objects. -/
def PyDate.ltb (a b : PyDate) : Bool :=
  if a.year < b.year then true
  else if b.year < a.year then false
  else if a.month < b.month then true
  else if b.month < a.month then false
  else decide (a.day < b.day)

/-- The Gregorian leap-year rule. -/
def isLeapYear (y : Nat) : Bool :=
  y % 4 == 0 && (y % 100 != 0 || y % 400 == 0)

/-- Days in a month of the Gregorian calendar. -/
def daysInMonth (y m : Nat) : Nat :=
  if m == 2 then (if isLeapYear y then 29 else 28)
  else if m == 4 || m == 6 || m == 9 || m == 11 then 30
  else 31

/-- The calendar successor of a date. -/
def nextDay (d : PyDate) : PyDate :=
  if d.day < daysInMonth d.year d.month then ⟨d.year, d.month, d.day + 1⟩
  else if d.month < 12 then ⟨d.year, d.month + 1, 1⟩
  else ⟨d.year + 1, 1, 1⟩

/-- `datetime.now() + timedelta(days=n)`, as `n` applications of the calendar
successor. -/
def addDays (d : PyDate) : Nat → PyDate
  | 0 => d
  | n + 1 => addDays (nextDay d) n

/-- Python's `date.replace(year=y)`: the same month and day under a new year,
raising (here: `none`) when the day does not exist in that month of `y`
(February 29 outside leap years). In `extract_date` the raise is caught by
the surrounding `except: continue`. -/
def replaceYear (d : PyDate) (y : Nat) : Option PyDate :=
  if d.day ≤ daysInMonth y d.month then some ⟨y, d.month, d.day⟩ else none

/-- Lines 155-163 of `extract_date`: a parsed absolute date whose year is
earlier than the current year is moved to the current year, and if the result
is still strictly before today it is moved one further year ahead. -/
def normalizeParsedDate (today d : PyDate) : Option PyDate :=
  let step1 := if d.year < today.year then replaceYear d today.year else some d
  match step1 with
  | none => none
  | some d1 => if PyDate.ltb d1 today then replaceYear d1 (today.year + 1) else some d1

/-- What one date pattern of `extract_date` yields before resolution: a
relative keyword, or an absolute date as `dateutil.parser.parse` returns it.
The regular-expression layer and `dateutil` are external to the embedding;
the claims quantify over every value they can produce. -/
inductive DateToken
  | todayTok
  | tomorrowTok
  | nextWeekTok
  | nextMonthTok
  | absolute (d : PyDate)
deriving DecidableEq, Repr

/-- Resolution of one matched pattern, lines 143-163 of `extract_date`. -/
def resolveDateToken (today : PyDate) : DateToken → Option PyDate
  | .todayTok => some today
  | .tomorrowTok => some (addDays today 1)
  | .nextWeekTok => some (addDays today 7)
  | .nextMonthTok => some (addDays today 30)
  | .absolute d => normalizeParsedDate today d

/-- `IntentService.extract_date`: the pattern loop, trying each matched
pattern in order and continuing past parse failures, returning the first
resolved date or `None`. -/
def extract_date (today : PyDate) : List DateToken → Option PyDate
  | [] => none
  | t :: ts =>
    match resolveDateToken today t with
    | some r => some r
    | none => extract_date today ts

/-! ### Conversation sessions (`models/conversation.py`) -/

/-- The `ConversationState` enumeration of `models/conversation.py`. The
member `COLLECT_OFFICE_ID` referenced by `llm_dialogue_manager.py` and
`test_booking_flow.py` is absent from this enumeration in the source. -/
inductive ConvState
  | greeting
  | collect_source
  | collect_destination
  | collect_date
  | collect_passengers
  | show_flights
  | collect_selection
  | collect_passenger_details
  | collect_ssr
  | confirm_booking
  | completed
deriving DecidableEq, Repr, Inhabited

/-- A city record of the reference city table (`data/cities.json`): the fields
the dialogue code reads. -/
structure CityRec where
  name : String
  iata : String
  aliases : List String
deriving DecidableEq, Repr, Inhabited

/-- A passenger-details record as returned by
`IntentService.extract_passenger_details`. -/
structure PassengerRec where
  first_name : String
  last_name : String
  dob : String
  passport_number : String
  nationality : String
deriving DecidableEq, Repr, Inhabited

/-- A special-service request as returned by
`IntentService.extract_ssr_requests`: a category and a preference. -/
structure SsrReq where
  type : String
  preference : String
deriving DecidableEq, Repr, Inhabited

/-- The booking-slot dictionary `ConversationSession.data`, as a fixed-field
record (its key set is fixed across the repository, plus the `office_id` key
the LLM manager adds). -/
structure SessionData where
  source_city : Option CityRec
  destination_city : Option CityRec
  departure_date : Option String
  return_date : Option String
  adults : Int
  children : Int
  infants : Int
  selected_flight : Option FlightB
  passengers : List PassengerRec
  ssr : List SsrReq
  pnr : Option String
  booking_confirmed : Bool
  office_id : Option String
deriving DecidableEq, Repr

/-- The slot defaults of `ConversationSession.__init__`. -/
def defaultSessionData : SessionData where
  source_city := none
  destination_city := none
  departure_date := none
  return_date := none
  adults := 1
  children := 0
  infants := 0
  selected_flight := none
  passengers := []
  ssr := []
  pnr := none
  booking_confirmed := false
  office_id := none

/-- A record persisted by `models/ticket_storage.py` (`store_ticket_data`):
phone number, timestamps and the parsed-ticket payload. -/
structure StoredTicket where
  phone_number : String
  stored_at : Int
  expires_at : Int
  ticket_info : TicketInfo
  price_comparison : Option PriceComparisonResult
deriving DecidableEq, Repr

/-- `ConversationSession`: identity, state, timestamps (seconds on an abstract
clock), the slot record, and the transient context dictionary flattened into
fixed fields (`last_message`, `retry_count`, `error_message`,
`available_flights`, plus the `parsed_ticket` and `price_comparison` keys the
LLM manager adds). -/
structure Session where
  phone_number : String
  state : ConvState
  created_at : Int
  last_activity : Int
  data : SessionData
  last_message : Option String
  retry_count : Int
  error_message : Option String
  available_flights : List FlightB
  parsed_ticket : Option TicketInfo
  price_comparison : Option PriceComparisonResult
deriving DecidableEq, Repr

/-- `ConversationSession.__init__`: a fresh session at a moment `now`. -/
def newSession (phone : String) (now : Int) : Session where
  phone_number := phone
  state := .greeting
  created_at := now
  last_activity := now
  data := defaultSessionData
  last_message := none
  retry_count := 0
  error_message := none
  available_flights := []
  parsed_ticket := none
  price_comparison := none

/-- `ConversationSession.set_state`: write the state, refresh the activity
timestamp, and zero the retry counter. -/
def Session.setState (s : Session) (now : Int) (st : ConvState) : Session :=
  { s with state := st, last_activity := now, retry_count := 0 }

/-- `ConversationSession.increment_retry` (no activity refresh in the source). -/
def Session.incrementRetry (s : Session) : Session :=
  { s with retry_count := s.retry_count + 1 }

/-- `ConversationSession.reset_retry` (no activity refresh in the source). -/
def Session.resetRetry (s : Session) : Session :=
  { s with retry_count := 0 }

/-- `ConversationSession.is_expired`: `now > last_activity + timedelta(minutes
= timeout_minutes)`, on the clock in seconds. -/
def is_expired (now : Int) (s : Session) (timeout_minutes : Int) : Bool :=
  decide (now > s.last_activity + timeout_minutes * 60)

/-- The session map owned by `SessionManager`, keyed by phone number. -/
def SessionMap := List (String × Session)

/-- Dictionary lookup in the session map. -/
def lookupSession (m : List (String × Session)) (p : String) : Option Session :=
  (m.find? (fun kv => kv.1 == p)).map (fun kv => kv.2)

/-- Dictionary assignment `self.sessions[p] = s` (replace or add). -/
def insertSession (m : List (String × Session)) (p : String) (s : Session) :
    List (String × Session) :=
  if (m.find? (fun kv => kv.1 == p)).isSome then
    m.map (fun kv => if kv.1 == p then (p, s) else kv)
  else m ++ [(p, s)]

/-- `SessionManager.get_session`: return the stored live session, or store and
return a fresh one when the phone number is absent or its session has passed
the 30-minute timeout. -/
def get_session (now : Int) (m : List (String × Session)) (phone : String) :
    Session × List (String × Session) :=
  match lookupSession m phone with
  | none =>
    let s := newSession phone now
    (s, insertSession m phone s)
  | some s =>
    if is_expired now s 30 then
      let s2 := newSession phone now
      (s2, insertSession m phone s2)
    else (s, m)

/-! ### Persistent ticket storage (`models/ticket_storage.py`) -/

/-- The content found at one storage path: unreadable bytes, or a readable
record. `json.load` on a corrupt file raises, which `get_ticket_data` catches
and `cleanup_expired_tickets` maps to deletion. -/
inductive TicketFile
  | corrupt
  | valid (rec : StoredTicket)
deriving DecidableEq, Repr

/-- The storage directory, keyed by cleaned phone number. -/
def TicketStore := List (String × TicketFile)

/-- The filename cleaning of `_get_ticket_file_path`:
`phone.replace('+', '').replace('-', '').replace(' ', '')`. -/
def clean_phone (p : String) : String :=
  String.mk (p.toList.filter (fun c => !(c == '+' || c == '-' || c == ' ')))

/-- File lookup in the storage directory. -/
def lookupTicketFile (st : List (String × TicketFile)) (key : String) :
    Option TicketFile :=
  (st.find? (fun kv => kv.1 == key)).map (fun kv => kv.2)

/-- `os.remove` of one key. -/
def eraseTicketFile (st : List (String × TicketFile)) (key : String) :
    List (String × TicketFile) :=
  st.filter (fun kv => !(kv.1 == key))

/-- `TicketStorage.get_ticket_data`: miss when the file is absent; on
unreadable content the raised error is caught and `None` returned with the
file left in place; an expired record is deleted and `None` returned;
otherwise the record is returned. -/
def get_ticket_data (now : Int) (st : List (String × TicketFile)) (phone : String) :
    Option StoredTicket × List (String × TicketFile) :=
  let key := clean_phone phone
  match lookupTicketFile st key with
  | none => (none, st)
  | some .corrupt => (none, st)
  | some (.valid rec) =>
    if now > rec.expires_at then (none, eraseTicketFile st key)
    else (some rec, st)

/-- `TicketStorage.store_ticket_data`: write a record expiring 24 hours from
now (the clock in seconds). -/
def store_ticket_data (now : Int) (st : List (String × TicketFile)) (phone : String)
    (ticket_info : TicketInfo) (price_comparison : Option PriceComparisonResult) :
    List (String × TicketFile) :=
  let key := clean_phone phone
  let rec0 : StoredTicket :=
    { phone_number := phone, stored_at := now, expires_at := now + 24 * 3600,
      ticket_info := ticket_info, price_comparison := price_comparison }
  eraseTicketFile st key ++ [(key, .valid rec0)]

/-- `TicketStorage.cleanup_expired_tickets`: delete every expired record and
every unreadable file, counting the deletions. -/
def cleanup_expired_tickets (now : Int) :
    List (String × TicketFile) → Nat × List (String × TicketFile)
  | [] => (0, [])
  | (k, f) :: rest =>
    let (c, rest2) := cleanup_expired_tickets now rest
    match f with
    | .corrupt => (c + 1, rest2)
    | .valid rec0 =>
      if now > rec0.expires_at then (c + 1, rest2) else (c, (k, f) :: rest2)

/-! ### Booking ledger (`models/flight_data.py`, `BookingManager`) -/

/-- The `SpecialServiceRequest` dataclass of `models/flight_data.py`. -/
structure SpecialServiceRequest where
  type : String
  code : String
  description : String
deriving DecidableEq, Repr

/-- The `Booking` dataclass. The flight slot is optional because the Python
dataclass accepts whatever object the caller passes, `None` included. -/
structure Booking where
  pnr : String
  flight : Option FlightB
  passengers : List PassengerRec
  contact_email : String
  contact_phone : String
  special_requests : List SpecialServiceRequest
  booking_date : Int
  status : String
  ticket_issued : Bool
deriving DecidableEq, Repr

/-- The ledger `BookingManager.bookings`, keyed by PNR. -/
def BookingMgr := List (String × Booking)

/-- The PNR keys currently in the ledger. -/
def bookingKeys (m : List (String × Booking)) : List String :=
  m.map (fun kv => kv.1)

/-- Ledger lookup by PNR. -/
def lookupBooking (m : List (String × Booking)) (p : String) : Option Booking :=
  (m.find? (fun kv => kv.1 == p)).map (fun kv => kv.2)

/-- The regeneration loop of `create_booking` lines 142-144: draw PNRs from
the generator until one is not already a ledger key. The random generator
`generate_pnr` is external; its successive outputs enter as the list
`supply`, and `none` stands for the loop never terminating because the
supply is exhausted while every drawn PNR collides. -/
def draw_pnr (keys : List String) : List String → Option (String × List String)
  | [] => none
  | p :: rest => if keys.contains p then draw_pnr keys rest else some (p, rest)

/-- `BookingManager.create_booking`: draw a fresh PNR, build the booking with
status `CONFIRMED` and no ticket issued, and store it under its PNR (the key
is fresh, so the dictionary assignment is a plain insertion). -/
def create_booking (m : List (String × Booking)) (supply : List String)
    (flight : Option FlightB) (passengers : List PassengerRec)
    (contact_email contact_phone : String) (now : Int) :
    Option (Booking × List (String × Booking) × List String) :=
  match draw_pnr (bookingKeys m) supply with
  | none => none
  | some (p, rest) =>
    let b : Booking :=
      { pnr := p, flight := flight, passengers := passengers,
        contact_email := contact_email, contact_phone := contact_phone,
        special_requests := [], booking_date := now, status := "CONFIRMED",
        ticket_issued := false }
    some (b, (p, b) :: m, rest)

/-- A sequence of `n` `create_booking` calls against one ledger, returning the
issued PNRs in order together with the final ledger and remaining supply. -/
def createBookings (flight : Option FlightB) (passengers : List PassengerRec)
    (contact_email contact_phone : String) (now : Int) :
    Nat → List (String × Booking) → List String →
    Option (List String × List (String × Booking) × List String)
  | 0, m, supply => some ([], m, supply)
  | n + 1, m, supply =>
    match create_booking m supply flight passengers contact_email contact_phone now with
    | none => none
    | some (b, m2, supply2) =>
      match createBookings flight passengers contact_email contact_phone now n m2 supply2 with
      | none => none
      | some (pnrs, m3, supply3) => some (b.pnr :: pnrs, m3, supply3)

/-! ### Passenger-count extraction (`services/intent_service.py`,
`IntentService.extract_passenger_count`) -/

/-- Numeric value of a decimal digit character. -/
def digitVal (c : Char) : Nat := c.toNat - '0'.toNat

/-- Value of a digit run, most significant first. -/
def digitsToNat (ds : List Char) : Nat :=
  ds.foldl (fun a c => a * 10 + digitVal c) 0

/-- The word-character class of the token `\w` (the repository only feeds it
ASCII text). -/
def isWordChar (c : Char) : Bool := c.isAlphanum || c == '_'

/-- Match of `(\d+)\s*KW` anchored at the start of `l`: the greedy digit run,
optional whitespace, then the keyword. A shorter digit run can never satisfy
the pattern (the remainder would start with a digit, which neither `\s*` nor
the keyword accepts), so no backtracking case arises. -/
def matchNumThen (kw : List Char) (l : List Char) : Option Nat :=
  let ds := l.takeWhile Char.isDigit
  let rest := l.dropWhile Char.isDigit
  if ds.isEmpty then none
  else if isPrefixL kw (rest.dropWhile isSpaceChar) then some (digitsToNat ds)
  else none

/-- Leftmost match of `(\d+)\s*KW`, as `re.findall(...)[0]` selects it. -/
def findNumThen (kw : List Char) : List Char → Option Nat
  | [] => none
  | c :: cs =>
    match matchNumThen kw (c :: cs) with
    | some n => some n
    | none => findNumThen kw cs

/-- The group of the first match of the pattern `(\d+)\s*KW` in `s`, or `none`
(`re.findall` with `matches[0]`, and `re.search` as the `isSome` of this). -/
def findNumPattern (kw s : String) : Option Nat :=
  findNumThen kw.toList s.toList

/-- Leftmost match of `\b(\d+)\b`: a maximal digit run with no word character
on either side, scanned position by position as the regex engine does; `prev`
is the character before the current position. -/
def findBareAux (prev : Option Char) : List Char → Option Nat
  | [] => none
  | c :: cs =>
    if c.isDigit && (match prev with | none => true | some p => !isWordChar p) then
      let ds := (c :: cs).takeWhile Char.isDigit
      let rest := (c :: cs).dropWhile Char.isDigit
      match rest with
      | [] => some (digitsToNat ds)
      | r :: _ =>
        if !isWordChar r then some (digitsToNat ds) else findBareAux (some c) cs
    else findBareAux (some c) cs

/-- The first match of `\b(\d+)\b` in `s`. -/
def findBareNumber (s : String) : Option Nat := findBareAux none s.toList

/-- The dictionary returned by `extract_passenger_count`. -/
structure PassengerCounts where
  adults : Int
  children : Int
  infants : Int
deriving DecidableEq, Repr

/-- Total travellers across the three categories. -/
def PassengerCounts.total (pc : PassengerCounts) : Int :=
  pc.adults + pc.children + pc.infants

/-- `IntentService.extract_passenger_count`: the explicit category patterns in
the dictionary's insertion order (`adults`, `children`, `infants`,
`passengers`, `people`, `pax`, the last three writing the adult slot), then
the bare-number fallback guarded by no category pattern having matched, then
the special text patterns of lines 200-208, which run unconditionally. -/
def extract_passenger_count (message : String) : PassengerCounts :=
  let m := pyLower message
  let c0 : PassengerCounts := ⟨1, 0, 0⟩
  let c1 := match findNumPattern "adult" m with
    | some n => { c0 with adults := (n : Int) } | none => c0
  let c2 := match findNumPattern "child" m with
    | some n => { c1 with children := (n : Int) } | none => c1
  let c3 := match findNumPattern "infant" m with
    | some n => { c2 with infants := (n : Int) } | none => c2
  let c4 := match findNumPattern "passenger" m with
    | some n => { c3 with adults := (n : Int) } | none => c3
  let c5 := match findNumPattern "people" m with
    | some n => { c4 with adults := (n : Int) } | none => c4
  let c6 := match findNumPattern "pax" m with
    | some n => { c5 with adults := (n : Int) } | none => c5
  let anyPattern := (findNumPattern "adult" m).isSome || (findNumPattern "child" m).isSome ||
    (findNumPattern "infant" m).isSome || (findNumPattern "passenger" m).isSome ||
    (findNumPattern "people" m).isSome || (findNumPattern "pax" m).isSome
  let c7 :=
    if anyPattern then c6
    else match findBareNumber m with
      | some n => if n ≤ 9 then { c6 with adults := (n : Int) } else c6
      | none => c6
  if strContains m "just me" || strContains m "only me" || strContains m "myself" then
    ⟨1, 0, 0⟩
  else if strContains m "two" || strContains message "2" then { c7 with adults := 2 }
  else if strContains m "three" || strContains message "3" then { c7 with adults := 3 }
  else if strContains m "four" || strContains message "4" then { c7 with adults := 4 }
  else c7

/-- `IntentService.is_affirmative`: any keyword as a substring of the
lowercased, trimmed message. -/
def is_affirmative (message : String) : Bool :=
  ["yes", "ok", "okay", "sure", "confirm", "proceed", "book it", "go ahead"].any
    (strContains (pyStrip (pyLower message)))

/-- `IntentService.is_negative`. -/
def is_negative (message : String) : Bool :=
  ["no", "cancel", "stop", "quit", "exit", "abort"].any
    (strContains (pyStrip (pyLower message)))

/-! ### Flight-service route helpers (`services/flight_service.py`) -/

/-- `FlightService.validate_route`. -/
def validate_route (inventory : List FlightB) (origin destination : String) : Bool :=
  inventory.any (fun f => f.origin == pyUpper origin && f.destination == pyUpper destination)

/-- `FlightService.get_available_destinations_from`: the source collects into
a Python `set`; embedded as first-occurrence deduplication, an order no claim
observes. -/
def get_available_destinations_from (inventory : List FlightB) (origin : String) :
    List String :=
  ((inventory.filter (fun f => f.origin == pyUpper origin)).map
    (fun f => f.destination)).dedup

/-- `DialogueManager._get_city_name_by_iata` over the reference city table. -/
def get_city_name_by_iata (cities : List CityRec) (iata_code : String) : String :=
  match cities.find? (fun c => c.iata == iata_code) with
  | some c => c.name
  | none => iata_code

/-- `Flight.format_for_display`. Numeric formatting elides the
thousands separators of `f"{price:,}"`, which no claim observes. -/
def format_for_display (f : FlightB) (index : Nat) : String :=
  "✈️ *Option " ++ toString index ++ "*\n🛫 " ++ f.airline ++ " - " ++ f.flight_id ++
  "\n🕐 " ++ f.departure_time ++ " → " ++ f.arrival_time ++ "\n💰 ₹" ++ toString f.price ++
  "\n⏱️ Duration: " ++ f.duration ++ "\n✈️ Aircraft: " ++ f.aircraft

/-- The option separator of `format_flights_for_whatsapp`: 30 box-drawing
dashes between blank lines. -/
def flightSeparator : String :=
  "\n\n" ++ String.mk (List.replicate 30 '─') ++ "\n\n"

/-- Numbered flight list built by `format_flights_for_whatsapp`. -/
def formatFlightList : Nat → List FlightB → String
  | _, [] => ""
  | i, [f] => format_for_display f i
  | i, f :: g :: rest => format_for_display f i ++ flightSeparator ++ formatFlightList (i + 1) (g :: rest)

/-- `FlightService.format_flights_for_whatsapp`. -/
def format_flights_for_whatsapp (flights : List FlightB) : String :=
  match flights with
  | [] => "❌ No flights found for your search criteria. Please try different dates or destinations."
  | _ =>
    "✈️ *Available Flights:*\n\n" ++ formatFlightList 1 flights ++
    "\n\n📝 *How to select:*\nReply with the option number (e.g., type '*1*' or '*Option 1*')"

/-! ### The collaborator bundle

The dialogue managers consult the deterministic parsers of `IntentService`
(whose city matcher reads the external `data/cities.json` table through the
external `fuzzywuzzy` matcher), the free-text oracle of `LLMService`, and the
flight inventory of `FlightService` (read from the external
`data/dummy_flights.json`). These collaborators enter as one explicit
parameter record; a claim about a handler quantifies over every collaborator
behaviour unless the claim pins one down. -/

/-- The `extracted_data` object of an `LLMService.analyze_flight_booking_message`
response. -/
structure LlmExtracted where
  source_city : Option String
  destination_city : Option String
  departure_date : Option String
  adults : Option Int
  children : Option Int
  infants : Option Int
deriving DecidableEq, Repr

/-- A response of `LLMService.analyze_flight_booking_message` (oracle output
or the fallback). -/
structure LlmAnalysis where
  intent : String
  extracted_data : LlmExtracted
  confidence : Rat
  next_question : Option String
  reasoning : String
deriving DecidableEq, Repr

/-- The `current_data` snapshot `_handle_with_llm` passes to the oracle. -/
structure CurrentData where
  source_city : Option CityRec
  destination_city : Option CityRec
  departure_date : Option String
  adults : Int
  children : Int
  infants : Int
deriving DecidableEq, Repr

/-- The collaborators of both dialogue managers. -/
structure Env where
  cities_data : List CityRec
  inventory : List FlightB
  extractCities : String → List CityRec
  extractDate : String → Option String
  extractPassengerCount : String → PassengerCounts
  extractFlightSelection : String → Option Int
  extractPassengerDetails : String → Option PassengerRec
  extractSsrRequests : String → List SsrReq
  isAffirmativeF : String → Bool
  isNegativeF : String → Bool
  analyze : String → CurrentData → LlmAnalysis
  generateResponse : LlmAnalysis → SessionData → String

/-- Truthiness of an optional string under Python (`None` and the empty
string are falsy). -/
def truthyStr : Option String → Bool
  | none => false
  | some s => !s.isEmpty

/-- Truthiness of an optional integer under Python (`None` and `0` are falsy). -/
def truthyInt : Option Int → Bool
  | none => false
  | some n => n != 0

/-! ### Reply texts of `services/dialogue_manager.py` -/

/-- The generic reply of the exception handler at the top of
`DialogueManager.process_message`. -/
def dm_generic_error : String :=
  "❌ Something went wrong. Please try again or type 'help' for assistance."

/-- The retry-exhaustion reply of `DialogueManager._offer_human_support`. -/
def dm_human_support_msg : String :=
  "🆘 *Need Human Assistance*\n\nI'm having trouble understanding your request. Let me connect you with our support team.\n\n*Your support ticket ID: #12345*\n\nMeanwhile, you can:\n• Try rephrasing your request\n• Type \"*help*\" for assistance\n• Type \"*book flight*\" to start over\n\nOur team will contact you shortly! 📞"

/-- The retry-exhaustion reply of `LLMDialogueManager._offer_human_support`
(its closing suggestion differs from the other manager's). -/
def llm_human_support_msg : String :=
  "🆘 *Need Human Assistance*\n\nI'm having trouble understanding your request. Let me connect you with our support team.\n\n*Your support ticket ID: #12345*\n\nMeanwhile, you can:\n• Try rephrasing your request\n• Type \"*help*\" for assistance\n• Tell me about your travel plans in different words\n\nOur team will contact you shortly! 📞"

/-- Source-city re-prompt of `_handle_source_collection`. -/
def dm_source_fail_msg : String :=
  "🏙️ I couldn't find that city. Please provide a valid departure city.\n\n*Examples:* Delhi, Mumbai, Bangalore, Hyderabad, Chennai\n\n*Which city are you flying from?*"

/-- Destination re-prompt of `_handle_destination_collection`. -/
def dm_destination_fail_msg : String :=
  "🏙️ I couldn't find that city. Please provide a valid destination city.\n\n*Examples:* Dubai, London, Singapore, Bangkok\n\n*Where would you like to fly to?*"

/-- The same-city rejection of `_handle_destination_collection`. -/
def same_city_msg : String :=
  "🤔 Source and destination cannot be the same. Please choose a different destination city."

/-- The unknown-route rejection of `_handle_destination_collection`, listing
the valid alternatives. -/
def no_route_msg (src dest : CityRec) (dest_names : List String) : String :=
  "❌ No flights available from " ++ src.name ++ " to " ++ dest.name ++
  ".\n\n*Available destinations from " ++ src.name ++ ":*\n" ++
  String.intercalate ", " dest_names ++ "\n\n*Please choose one of these destinations:*"

/-- Date re-prompt of `_handle_date_collection`. -/
def dm_date_fail_msg : String :=
  "📅 I couldn't understand the date. Please provide your travel date.\n\n*Examples:*\n• \"July 15\"\n• \"15/07/2025\"\n• \"Tomorrow\"\n• \"Next week\"\n\n*When would you like to travel?*"

/-- The passenger-cap rejection of `_handle_passenger_collection`. -/
def passenger_cap_msg : String :=
  "👥 Maximum 9 passengers allowed per booking. Please reduce the number of passengers."

/-- Passenger-count re-prompt of `_handle_passenger_collection`. -/
def dm_passenger_fail_msg : String :=
  "👥 Please tell me how many passengers will be traveling.\n\n*Examples:*\n• \"1 adult\"\n• \"2 adults\"\n• \"2 adults and 1 child\"\n• \"Just me\"\n\n*How many passengers?*"

/-- Selection re-prompt of `_handle_flight_selection`. -/
def selection_fail_msg (n : Nat) : String :=
  "❌ Invalid selection. Please choose a number between 1 and " ++ toString n ++
  ".\n\n*Example:* Type \"*1*\" to select the first option.\n\n*Which flight would you like to select?*"

/-- Acceptance reply of `_handle_flight_selection` for a single adult. -/
def selection_ok_single_msg (f : FlightB) : String :=
  "✅ *Flight Selected:* " ++ f.airline ++ " " ++ f.flight_id ++
  "\n\n👤 *Passenger Details Required:*\nPlease provide passenger information in this format:\n*Full Name, Date of Birth, Passport Number, Nationality*\n\n*Example:*\nJohn Doe, 10-May-1990, A1234567, Indian\n\n*Please enter passenger details:*"

/-- Acceptance reply of `_handle_flight_selection` for several adults. -/
def selection_ok_multi_msg (f : FlightB) (adults : Int) : String :=
  "✅ *Flight Selected:* " ++ f.airline ++ " " ++ f.flight_id ++
  "\n\n👥 *Passenger Details Required (" ++ toString adults ++
  " passengers):*\nPlease provide details for passenger 1 in this format:\n*Full Name, Date of Birth, Passport Number, Nationality*\n\n*Example:*\nJohn Doe, 10-May-1990, A1234567, Indian\n\n*Passenger 1 details:*"

/-- Malformed-record re-prompt of `_handle_passenger_details_collection`. -/
def details_fail_msg : String :=
  "❌ Invalid format. Please provide passenger details in this format:\n\n*Full Name, Date of Birth, Passport Number, Nationality*\n\n*Example:*\nJohn Doe, 10-May-1990, A1234567, Indian\n\n*Please try again:*"

/-- Progress reply of `_handle_passenger_details_collection` when more
records are needed. -/
def details_saved_msg (current next : Int) : String :=
  "✅ *Passenger " ++ toString current ++ " details saved!*\n\n👤 *Please provide details for passenger " ++
  toString next ++ ":*\n*Full Name, Date of Birth, Passport Number, Nationality*\n\n*Passenger " ++
  toString next ++ " details:*"

/-- Completion reply of `_handle_passenger_details_collection`. -/
def details_all_saved_msg : String :=
  "✅ *All passenger details saved!*\n\n🍽️ *Special Requests (Optional):*\nDo you have any special requests for your flight?\n\n*Examples:*\n• \"Vegetarian meal and window seat\"\n• \"Wheelchair assistance\"\n• \"Extra baggage\"\n• \"No special requests\"\n\n*Any special requests?*"

/-- The `no_flights` entry of `WhatsAppService.send_error_message`. The source
handler returns the boolean result of the send; the text stands in for it,
a difference no claim observes. -/
def whatsapp_no_flights_msg : String :=
  "❌ No flights found for your search. Try different dates or destinations."

/-- Next-step prompt of `_determine_next_step` asking for the source city. -/
def step_source_msg : String :=
  "🛫 *Great! Let's book your flight.*\n\n*Which city are you flying from?*"

/-- Next-step prompt asking for the destination. -/
def step_destination_msg (src : CityRec) : String :=
  "🛬 *Flying from " ++ src.name ++ ".*\n\n*Where would you like to go?*"

/-- Next-step prompt asking for the travel date. -/
def step_date_msg (dest : CityRec) : String :=
  "📅 *Flying to " ++ dest.name ++ ".*\n\n*When would you like to travel?*"

/-- Next-step prompt asking for the passenger count. -/
def step_passengers_msg : String :=
  "👥 *How many passengers will be traveling?*"

/-! ### The `DialogueManager` state handlers (`services/dialogue_manager.py`).
Each handler takes the collaborator record, the clock, the session and the
raw message, and returns the reply together with the mutated session, exactly
as the Python methods mutate their `session` argument. -/

/-- `_offer_human_support` of either manager: force the terminal state (which
also zeroes the retry counter) and answer with the given escalation text. -/
def offer_human_support (now : Int) (sess : Session) (supportMsg : String) :
    String × Session :=
  (supportMsg, sess.setState now .completed)

/-- `DialogueManager._handle_flight_display`: search, store the result list
in the session context, present it and move to selection; an empty result
answers with the collaborator's no-flights error. Reading a missing city slot
would raise in the source and be answered by the top-level handler with the
generic error; no mutation precedes that read. -/
def handle_flight_display (env : Env) (now : Int) (sess : Session) : String × Session :=
  match sess.data.source_city, sess.data.destination_city with
  | some src, some dest =>
    let flights := search_flights env.inventory src.iata dest.iata
      (sess.data.departure_date.getD "None") sess.data.adults sess.data.children
      sess.data.infants
    match flights with
    | [] => (whatsapp_no_flights_msg, sess)
    | _ =>
      let sess1 := { sess with available_flights := flights, last_activity := now }
      let reply := format_flights_for_whatsapp flights
      (reply, sess1.setState now .collect_selection)
  | _, _ => (dm_generic_error, sess)

/-- `DialogueManager._determine_next_step`: jump to the first unmet
requirement in the fixed order source, destination, date, passenger count, or
search flights when all are met. -/
def determine_next_step (env : Env) (now : Int) (sess : Session) : String × Session :=
  match sess.data.source_city with
  | none => (step_source_msg, sess.setState now .collect_source)
  | some src =>
    match sess.data.destination_city with
    | none => (step_destination_msg src, sess.setState now .collect_destination)
    | some dest =>
      match sess.data.departure_date with
      | none => (step_date_msg dest, sess.setState now .collect_date)
      | some _ =>
        if sess.data.adults ≤ 0 then
          (step_passengers_msg, sess.setState now .collect_passengers)
        else
          handle_flight_display env now (sess.setState now .show_flights)

/-- `DialogueManager._handle_source_collection`. -/
def handle_source_collection (env : Env) (now : Int) (sess : Session) (message : String) :
    String × Session :=
  match env.extractCities message with
  | source_city :: _ =>
    let sess1 := { sess with
      data := { sess.data with source_city := some source_city }, last_activity := now }
    determine_next_step env now sess1.resetRetry
  | [] =>
    let sess1 := sess.incrementRetry
    if sess1.retry_count ≥ 3 then offer_human_support now sess1 dm_human_support_msg
    else (dm_source_fail_msg, sess1)

/-- The acceptance tail of `_handle_destination_collection`: store the
destination, clear the retry counter and resolve the next step. -/
def acceptDestination (env : Env) (now : Int) (sess : Session) (dest : CityRec) :
    String × Session :=
  let sess1 := { sess with
    data := { sess.data with destination_city := some dest }, last_activity := now }
  determine_next_step env now sess1.resetRetry

/-- `DialogueManager._handle_destination_collection`. The same-city and
unknown-route rejections increment the retry counter but return without the
escalation check; only the no-city-recognized branch checks the retry limit.
When the alternatives list for an unknown route is empty the source falls
through and accepts the destination. -/
def handle_destination_collection (env : Env) (now : Int) (sess : Session)
    (message : String) : String × Session :=
  match env.extractCities message with
  | destination_city :: _ =>
    (match sess.data.source_city with
     | some src =>
       if destination_city.iata == src.iata then
         (same_city_msg, sess.incrementRetry)
       else if !validate_route env.inventory src.iata destination_city.iata then
         match get_available_destinations_from env.inventory src.iata with
         | [] => acceptDestination env now sess destination_city
         | avail@(_ :: _) =>
           let dest_names := avail.map (get_city_name_by_iata env.cities_data)
           (no_route_msg src destination_city dest_names, sess.incrementRetry)
       else acceptDestination env now sess destination_city
     | none => acceptDestination env now sess destination_city)
  | [] =>
    let sess1 := sess.incrementRetry
    if sess1.retry_count ≥ 3 then offer_human_support now sess1 dm_human_support_msg
    else (dm_destination_fail_msg, sess1)

/-- `DialogueManager._handle_date_collection`. -/
def handle_date_collection (env : Env) (now : Int) (sess : Session) (message : String) :
    String × Session :=
  match env.extractDate message with
  | some date =>
    let sess1 := { sess with
      data := { sess.data with departure_date := some date }, last_activity := now }
    determine_next_step env now sess1.resetRetry
  | none =>
    let sess1 := sess.incrementRetry
    if sess1.retry_count ≥ 3 then offer_human_support now sess1 dm_human_support_msg
    else (dm_date_fail_msg, sess1)

/-- `DialogueManager._handle_passenger_collection`. A total above nine is
rejected at once (retry incremented, no escalation check, no slot or state
write); a positive total within the cap stores the three counts and resolves
the next step; a zero total re-prompts with the escalation check. -/
def handle_passenger_collection (env : Env) (now : Int) (sess : Session)
    (message : String) : String × Session :=
  let pc := env.extractPassengerCount message
  let total := pc.adults + pc.children + pc.infants
  if total > 9 then (passenger_cap_msg, sess.incrementRetry)
  else if total > 0 then
    let d1 := { sess.data with
      adults := pc.adults, children := pc.children, infants := pc.infants }
    let sess1 := { sess with data := d1, last_activity := now }
    determine_next_step env now sess1.resetRetry
  else
    let sess1 := sess.incrementRetry
    if sess1.retry_count ≥ 3 then offer_human_support now sess1 dm_human_support_msg
    else (dm_passenger_fail_msg, sess1)

/-- `_handle_flight_selection`, identical in both managers up to the
escalation text (the Python truthiness guard on `selection` composes with
the range check into the single range test embedded here, since a zero
selection fails `1 <= selection` as well). -/
def handle_flight_selection (supportMsg : String) (env : Env) (now : Int)
    (sess : Session) (message : String) : String × Session :=
  let selection := env.extractFlightSelection message
  let afl := sess.available_flights
  let failure :=
    let sess1 := sess.incrementRetry
    if sess1.retry_count ≥ 3 then offer_human_support now sess1 supportMsg
    else (selection_fail_msg afl.length, sess1)
  match selection with
  | some n =>
    if 1 ≤ n ∧ n ≤ (afl.length : Int) then
      let selected := afl.getD (n - 1).toNat default
      let sess1 := { sess with
        data := { sess.data with selected_flight := some selected }, last_activity := now }
      let sess2 := (sess1.resetRetry).setState now .collect_passenger_details
      if sess2.data.adults == 1 then (selection_ok_single_msg selected, sess2)
      else (selection_ok_multi_msg selected sess2.data.adults, sess2)
    else failure
  | none => failure

/-- `_handle_passenger_details_collection` (`_handle_passenger_details` in the
LLM manager), identical in both managers up to the escalation text: append
one record per turn until the record count reaches the adult count. -/
def handle_passenger_details_collection (supportMsg : String) (env : Env) (now : Int)
    (sess : Session) (message : String) : String × Session :=
  match env.extractPassengerDetails message with
  | some pd =>
    let passengers := sess.data.passengers ++ [pd]
    let sess1 := { sess with
      data := { sess.data with passengers := passengers }, last_activity := now }
    let current : Int := passengers.length
    if current < sess1.data.adults then
      (details_saved_msg current (current + 1), sess1)
    else
      (details_all_saved_msg, (sess1.resetRetry).setState now .collect_ssr)
  | none =>
    let sess1 := sess.incrementRetry
    if sess1.retry_count ≥ 3 then offer_human_support now sess1 supportMsg
    else (details_fail_msg, sess1)

/-! ### Booking issuance (`services/flight_service.py` wrappers and
`models/flight_data.py` message building) -/

/-- The `SSR_CODES` table of `models/flight_data.py` as a lookup from category
and preference to code and description. -/
def ssr_code_lookup (t preference : String) : Option (String × String) :=
  if t == "meal" then
    if preference == "vegetarian" then some ("VGML", "Vegetarian Meal")
    else if preference == "vegan" then some ("VLML", "Vegan Meal")
    else if preference == "halal" then some ("MOML", "Halal Meal")
    else if preference == "kosher" then some ("KSML", "Kosher Meal")
    else if preference == "diabetic" then some ("DBML", "Diabetic Meal")
    else if preference == "child" then some ("CHML", "Child Meal")
    else none
  else if t == "seat" then
    if preference == "window" then some ("WINDOW", "Window Seat Preference")
    else if preference == "aisle" then some ("AISLE", "Aisle Seat Preference")
    else if preference == "extra_legroom" then some ("LEGROOM", "Extra Legroom Seat")
    else none
  else if t == "assistance" then
    if preference == "wheelchair" then some ("WCHR", "Wheelchair Assistance")
    else if preference == "blind" then some ("BLND", "Assistance for Blind Passenger")
    else if preference == "deaf" then some ("DEAF", "Assistance for Deaf Passenger")
    else none
  else if t == "baggage" then
    if preference == "extra" then some ("XBAG", "Extra Baggage (15kg)")
    else if preference == "sports" then some ("SPBG", "Sports Equipment")
    else none
  else none

/-- The conversion loop of `FlightService.add_special_requests`: unknown
category/preference pairs are silently dropped, the category name is
uppercased. -/
def convert_ssrs (reqs : List SsrReq) : List SpecialServiceRequest :=
  reqs.filterMap (fun r =>
    (ssr_code_lookup r.type r.preference).map
      (fun cd => SpecialServiceRequest.mk (pyUpper r.type) cd.1 cd.2))

/-- `BookingManager.add_special_requests`: extend the request list of the
booking stored under the PNR (the boolean success result is not read by any
claim and is elided). -/
def add_special_requests (m : List (String × Booking)) (p : String)
    (objs : List SpecialServiceRequest) : List (String × Booking) :=
  m.map (fun kv =>
    if kv.1 == p then
      (kv.1, { kv.2 with special_requests := kv.2.special_requests ++ objs })
    else kv)

/-- `BookingManager.issue_ticket`: flip the issued flag of the booking stored
under the PNR. -/
def issue_ticket (m : List (String × Booking)) (p : String) : List (String × Booking) :=
  m.map (fun kv =>
    if kv.1 == p then (kv.1, { kv.2 with ticket_issued := true }) else kv)

/-- `Booking.generate_confirmation_message`, for a booking whose flight slot
holds a flight (a `None` flight raises in the source before any text is
produced). -/
def generate_confirmation_message (b : Booking) (f : FlightB) : String :=
  let ssr_text :=
    if b.special_requests.isEmpty then ""
    else "\n\n🍽️ *Special Requests:*\n" ++
      String.intercalate "\n" (b.special_requests.map (fun s => "• " ++ s.description))
  let passenger_text :=
    if b.passengers.length == 1 then
      "👤 *Passenger:* " ++ ((b.passengers.headD default).first_name) ++ " " ++
        ((b.passengers.headD default).last_name)
    else
      "👥 *Passengers:*\n" ++ String.intercalate "\n"
        (b.passengers.map (fun p => "• " ++ p.first_name ++ " " ++ p.last_name))
  "🎫 *BOOKING CONFIRMED!*\n\n📋 *PNR:* " ++ b.pnr ++ "\n✈️ *Flight:* " ++ f.airline ++
  " " ++ f.flight_id ++ "\n🛫 *Route:* " ++ f.origin ++ " → " ++ f.destination ++
  "\n🕐 *Time:* " ++ f.departure_time ++ " - " ++ f.arrival_time ++ "\n💰 *Price:* ₹" ++
  toString f.price ++ "\n\n" ++ passenger_text ++ ssr_text ++
  "\n\n📧 Confirmation sent to: " ++ b.contact_email ++ "\n📱 SMS sent to: " ++
  b.contact_phone ++ "\n\n✅ *Status:* " ++ b.status ++ "\n🎟️ *Ticket:* " ++
  (if b.ticket_issued then "Issued" else "Will be issued shortly") ++
  "\n\nThank you for booking with us! 🙏"

/-- Python's `str.title()` on ASCII text. -/
def pyTitleAux : Bool → List Char → List Char
  | _, [] => []
  | prevAlpha, c :: cs =>
    if c.isAlpha then
      (if prevAlpha then c.toLower else c.toUpper) :: pyTitleAux true cs
    else c :: pyTitleAux false cs

/-- Python's `str.title()`. -/
def pyTitle (s : String) : String := String.mk (pyTitleAux false s.toList)

/-- One special-request line of `_generate_booking_summary`. -/
def ssrSummaryLine (s : SsrReq) : String :=
  if s.type == "meal" then "• " ++ pyTitle s.preference ++ " meal"
  else if s.type == "seat" then
    "• " ++ pyTitle (String.mk (s.preference.toList.map
      (fun c => if c == '_' then ' ' else c))) ++ " seat"
  else "• " ++ pyTitle s.preference

/-- `_generate_booking_summary`, identical in both managers. Reading a missing
flight or city slot raises in the source (`none` here); every slot write of
the calling handler precedes the raise, so the caller keeps the mutated
session and answers with its generic error. -/
def generate_booking_summary (sess : Session) : Option String :=
  match sess.data.selected_flight, sess.data.source_city, sess.data.destination_city with
  | some f, some src, some dest =>
    let passengers := sess.data.passengers
    let passenger_summary :=
      if passengers.length == 1 then
        "👤 *Passenger:* " ++ (passengers.headD default).first_name ++ " " ++
          (passengers.headD default).last_name
      else
        "👥 *Passengers:*\n" ++ String.intercalate "\n"
          (passengers.map (fun p => "• " ++ p.first_name ++ " " ++ p.last_name))
    let ssr_summary :=
      if sess.data.ssr.isEmpty then ""
      else "\n\n🍽️ *Special Requests:*\n" ++
        String.intercalate "\n" (sess.data.ssr.map ssrSummaryLine)
    some ("📋 *BOOKING SUMMARY*\n\n✈️ *Flight:* " ++ f.airline ++ " " ++ f.flight_id ++
      "\n🛫 *Route:* " ++ src.name ++ " → " ++ dest.name ++ "\n📅 *Date:* " ++
      (sess.data.departure_date.getD "None") ++ "\n🕐 *Time:* " ++ f.departure_time ++
      " - " ++ f.arrival_time ++ "\n💰 *Total Price:* ₹" ++ toString f.price ++
      "\n\n" ++ passenger_summary ++ ssr_summary ++
      "\n\n*Please confirm your booking:*\n• Type \"*yes*\" or \"*confirm*\" to proceed\n• Type \"*no*\" or \"*cancel*\" to cancel\n\n*Proceed with booking?*")
  | _, _, _ => none

/-- Reply of `_process_booking` when `FlightService.create_booking` yields no
booking. -/
def booking_failed_creating_msg : String :=
  "❌ *Booking Failed*\n\nSorry, there was an issue creating your booking. Please try again or contact support."

/-- Reply of the exception handler inside `_process_booking`. -/
def booking_failed_processing_msg : String :=
  "❌ *Booking Failed*\n\nSorry, there was an issue processing your booking. Please try again or contact support."

/-- `_process_booking`, identical in both managers: create the booking with
the fixed placeholder contact address, attach any special requests, issue the
ticket, record PNR and confirmation in the session and force the terminal
state. A `None` flight slot still creates and stores a flight-less booking;
building the confirmation message then raises, the handler's own `except`
replies with the booking-failed text, and the session mutations already
made persist. The local `b2` mirrors the stored booking object, which Python
mutates in place through the ledger alias. -/
def process_booking (now : Int) (m : List (String × Booking)) (supply : List String)
    (sess : Session) : String × Session × List (String × Booking) × List String :=
  match create_booking m supply sess.data.selected_flight sess.data.passengers
      "customer@example.com" sess.phone_number now with
  | none => (booking_failed_creating_msg, sess, m, supply)
  | some (b, m2, supply2) =>
    let ssr_objs := convert_ssrs sess.data.ssr
    let m3 := if sess.data.ssr.isEmpty then m2 else add_special_requests m2 b.pnr ssr_objs
    let m4 := issue_ticket m3 b.pnr
    let d1 := { sess.data with pnr := some b.pnr, booking_confirmed := true }
    let sess2 := ({ sess with data := d1, last_activity := now }).setState now .completed
    let b2 := { b with
      special_requests := if sess.data.ssr.isEmpty then [] else ssr_objs,
      ticket_issued := true }
    match b.flight with
    | some f => (generate_confirmation_message b2 f, sess2, m4, supply2)
    | none => (booking_failed_processing_msg, sess2, m4, supply2)

/-- `_handle_ssr_collection`, identical in both managers: a negative or skip
utterance stores an empty request list, anything else stores the extracted
requests; then move to confirmation and present the summary (`errMsg` is the
calling manager's generic error, answered when the summary raises). -/
def handle_ssr_collection (errMsg : String) (env : Env) (now : Int) (sess : Session)
    (message : String) : String × Session :=
  let d1 :=
    if env.isNegativeF message || strContains (pyLower message) "no special" ||
        strContains (pyLower message) "skip" then
      { sess.data with ssr := [] }
    else { sess.data with ssr := env.extractSsrRequests message }
  let sess1 := { sess with data := d1, last_activity := now }
  let sess2 := sess1.setState now .confirm_booking
  match generate_booking_summary sess2 with
  | some t => (t, sess2)
  | none => (errMsg, sess2)

/-- The re-prompt of `_handle_booking_confirmation`. -/
def confirm_reprompt_msg : String :=
  "Please confirm your booking:\n\n• Type \"*yes*\" or \"*confirm*\" to proceed with booking\n• Type \"*no*\" or \"*cancel*\" to cancel\n\n*Would you like to proceed?*"

/-- The cancellation reply of `DialogueManager._handle_booking_confirmation`. -/
def dm_cancel_msg : String :=
  "❌ *Booking Cancelled*\n\nNo worries! Feel free to start a new search anytime. Just say 'book flight' when you're ready. ✈️"

/-- The cancellation reply of `LLMDialogueManager._handle_booking_confirmation`. -/
def llm_cancel_msg : String :=
  "❌ *Booking Cancelled*\n\nNo worries! Feel free to start a new search anytime. Just tell me about your travel plans! ✈️"

/-- `_handle_booking_confirmation`, identical in both managers up to the
cancellation text. -/
def handle_booking_confirmation (cancelMsg : String) (env : Env) (now : Int)
    (m : List (String × Booking)) (supply : List String) (sess : Session)
    (message : String) : String × Session × List (String × Booking) × List String :=
  if env.isAffirmativeF message || strContains (pyLower message) "confirm" then
    process_booking now m supply sess
  else if env.isNegativeF message || strContains (pyLower message) "cancel" then
    (cancelMsg, sess.setState now .completed, m, supply)
  else (confirm_reprompt_msg, sess, m, supply)

/-! ### The LLM dialogue manager (`services/llm_dialogue_manager.py`) -/

/-- The generic reply of the exception handler at the top of
`LLMDialogueManager.process_message`. -/
def llm_generic_error : String :=
  "❌ Something went wrong. Please tell me about your travel plans again."

/-- The `reset_phrases` list of `process_message` lines 37-43. -/
def reset_phrases : List String :=
  ["i need to book flight", "i want to book flight", "book me a flight",
   "i need another flight", "i want another flight", "book another flight",
   "i need a new flight", "i want a new flight", "book a new flight",
   "new booking", "fresh booking", "start over", "book flight",
   "i need flight", "i want flight"]

/-- The post-upload actions `_detect_ticket_action` distinguishes (the empty
string it returns for no match is `none` here). -/
inductive TicketAction
  | compare_prices
  | search_similar
  | book_new
  | book_exact
  | book_with_better_price
deriving DecidableEq, Repr

/-- The `price_comparison_phrases` list of `_detect_ticket_action`, in source
order (the source lists `pricing` twice). -/
def price_comparison_phrases : List String :=
  ["compare prices", "price comparison", "compare", "comparison",
   "show prices", "show price", "tell me prices", "tell me price",
   "show me prices", "show me price", "display prices", "display price",
   "check prices", "check price", "price check", "check cost",
   "check fare", "fare check",
   "what about prices", "what about price", "what about cost",
   "what about fare", "how much", "how much does it cost",
   "what is the price", "what is price", "what price",
   "what cost", "what fare",
   "price details", "price detail", "cost details", "cost detail",
   "fare details", "fare detail", "pricing details", "pricing",
   "compare with system", "compare with your system", "system price",
   "your price", "better price", "cheaper price",
   "prices", "price", "cost", "costs", "fare", "fares",
   "pricing", "rate", "rates", "amount", "total",
   "analyze price", "analyze prices", "review price", "review prices"]

/-- `LLMDialogueManager._detect_ticket_action`: substring matching against
the lowercased, trimmed message, price-comparison phrases checked first, then
the four other action families in source order; first match wins. -/
def detect_ticket_action (message : String) : Option TicketAction :=
  let m := pyStrip (pyLower message)
  if price_comparison_phrases.any (strContains m) then some .compare_prices
  else if ["search similar", "find similar", "similar flights"].any (strContains m) then
    some .search_similar
  else if ["book new flight", "new booking", "book flight"].any (strContains m) then
    some .book_new
  else if ["book this flight", "book same flight", "book exact"].any (strContains m) then
    some .book_exact
  else if ["book with new price", "book new price", "go ahead", "proceed",
           "book cheaper", "book better price", "book with system", "book now",
           "yes book", "book it", "book this"].any (strContains m) then
    some .book_with_better_price
  else none

/-- The slot reset of `process_message` lines 55-67 on a detected new-booking
intent: the listed slots return to their defaults (`pnr`, `return_date` and
`booking_confirmed` are not touched by this branch), the cached flight list
is cleared (the source stores `None` in the context; no modelled claim reads
the field after a reset), and the state returns to greeting. -/
def resetBookingData (now : Int) (sess : Session) : Session :=
  let d := { sess.data with
    source_city := none, destination_city := none, departure_date := none,
    adults := 1, children := 0, infants := 0, passengers := [], ssr := [],
    selected_flight := none }
  ({ sess with data := d, available_flights := [], last_activity := now }).setState
    now .greeting

/-- The no-flights reply of `LLMDialogueManager._search_and_display_flights`. -/
def llm_no_flights_msg (src dest : CityRec) (date : String) : String :=
  "❌ *No flights found*\n\nSorry, no flights available from " ++ src.name ++ " to " ++
  dest.name ++ " on " ++ date ++
  ".\n\n*Try:*\n• Different dates\n• Different destinations\n• Or tell me about alternative travel plans"

/-- `LLMDialogueManager._search_and_display_flights`. -/
def search_and_display_flights (env : Env) (now : Int) (sess : Session) :
    String × Session :=
  match sess.data.source_city, sess.data.destination_city with
  | some src, some dest =>
    let flights := search_flights env.inventory src.iata dest.iata
      (sess.data.departure_date.getD "None") sess.data.adults sess.data.children
      sess.data.infants
    match flights with
    | [] => (llm_no_flights_msg src dest (sess.data.departure_date.getD "None"), sess)
    | _ =>
      let sess1 := { sess with available_flights := flights, last_activity := now }
      let sess2 := sess1.setState now .collect_selection
      (format_flights_for_whatsapp flights, sess2)
  | _, _ => (llm_generic_error, sess)

/-- `LLMDialogueManager._handle_with_llm`: consult the oracle; outside booking
intent answer with the oracle text; otherwise merge oracle extraction into
empty slots only, fall back to deterministic city extraction when both city
slots are still empty (two cities fill source and destination in message
order, a single city fills the destination), fall back to deterministic date
extraction, overwrite the three passenger counts from any truthy oracle
value, and either search flights when source, destination and date are all
present or ask the oracle's next question. -/
def handle_with_llm (env : Env) (now : Int) (sess : Session) (message : String) :
    String × Session :=
  let current : CurrentData :=
    { source_city := sess.data.source_city, destination_city := sess.data.destination_city,
      departure_date := sess.data.departure_date, adults := sess.data.adults,
      children := sess.data.children, infants := sess.data.infants }
  let analysis := env.analyze message current
  if analysis.intent != "flight_booking" then
    (env.generateResponse analysis sess.data, sess)
  else
    let extracted := analysis.extracted_data
    let sess1 :=
      if truthyStr extracted.source_city && current.source_city.isNone then
        match env.extractCities (extracted.source_city.getD "") with
        | c :: _ => { sess with
            data := { sess.data with source_city := some c }, last_activity := now }
        | [] => sess
      else sess
    let sess2 :=
      if truthyStr extracted.destination_city && current.destination_city.isNone then
        match env.extractCities (extracted.destination_city.getD "") with
        | c :: _ => { sess1 with
            data := { sess1.data with destination_city := some c }, last_activity := now }
        | [] => sess1
      else sess1
    let sess3 :=
      if sess2.data.source_city.isNone && sess2.data.destination_city.isNone then
        match env.extractCities message with
        | c1 :: c2 :: _ =>
          let d := { sess2.data with source_city := some c1, destination_city := some c2 }
          { sess2 with data := d, last_activity := now }
        | [c1] => { sess2 with
            data := { sess2.data with destination_city := some c1 }, last_activity := now }
        | [] => sess2
      else sess2
    let sess4 :=
      if truthyStr extracted.departure_date && current.departure_date.isNone then
        { sess3 with
          data := { sess3.data with departure_date := extracted.departure_date },
          last_activity := now }
      else if current.departure_date.isNone then
        match env.extractDate message with
        | some d => { sess3 with
            data := { sess3.data with departure_date := some d }, last_activity := now }
        | none => sess3
      else sess3
    let sess5 :=
      if truthyInt extracted.adults then
        { sess4 with
          data := { sess4.data with adults := extracted.adults.getD 0 },
          last_activity := now }
      else sess4
    let sess6 :=
      if truthyInt extracted.children then
        { sess5 with
          data := { sess5.data with children := extracted.children.getD 0 },
          last_activity := now }
      else sess5
    let sess7 :=
      if truthyInt extracted.infants then
        { sess6 with
          data := { sess6.data with infants := extracted.infants.getD 0 },
          last_activity := now }
      else sess6
    if sess7.data.source_city.isSome && sess7.data.destination_city.isSome &&
        truthyStr sess7.data.departure_date then
      search_and_display_flights env now sess7
    else (env.generateResponse analysis sess7.data, sess7)

/-- `LLMDialogueManager.process_message`. In order: record the message in the
context; restore cached ticket data from persistent storage when the session
context lacks it (`stored` is what `ticket_storage.get_ticket_data` returned
for this phone number); reset the booking slots and defer to the oracle when
the message carries a reset phrase and a city slot is filled; otherwise
dispatch on the state. The dispatch chain handles the four mid-booking
states; for every other state it next evaluates
`ConversationState.COLLECT_OFFICE_ID`, a member absent from the enumeration
in `models/conversation.py`, so an `AttributeError` is raised, caught by the
top-level handler, and answered with the generic error reply — the handlers
below that point in the file, `_handle_completed_state` and the ticket
actions among them, are unreachable through this dispatch. -/
def llm_process_message (env : Env) (now : Int) (stored : Option StoredTicket)
    (m : List (String × Booking)) (supply : List String) (sess : Session)
    (message : String) : String × Session × List (String × Booking) × List String :=
  let sess1 := { sess with last_message := some message, last_activity := now }
  let sess2 :=
    match sess1.parsed_ticket with
    | some _ => sess1
    | none =>
      match stored with
      | some st =>
        { sess1 with
          parsed_ticket := some st.ticket_info,
          price_comparison := st.price_comparison,
          last_activity := now }
      | none => sess1
  let message_lower := pyStrip (pyLower message)
  let is_reset_intent := reset_phrases.any (strContains message_lower)
  if is_reset_intent && (sess2.data.source_city.isSome || sess2.data.destination_city.isSome) then
    let sess3 := resetBookingData now sess2
    let (r, s4) := handle_with_llm env now sess3 message
    (r, s4, m, supply)
  else
    match sess2.state with
    | .collect_selection =>
      let (r, s3) := handle_flight_selection llm_human_support_msg env now sess2 message
      (r, s3, m, supply)
    | .collect_passenger_details =>
      let (r, s3) :=
        handle_passenger_details_collection llm_human_support_msg env now sess2 message
      (r, s3, m, supply)
    | .collect_ssr =>
      let (r, s3) := handle_ssr_collection llm_generic_error env now sess2 message
      (r, s3, m, supply)
    | .confirm_booking => handle_booking_confirmation llm_cancel_msg env now m supply sess2 message
    | _ => (llm_generic_error, sess2, m, supply)

/-! ### Concrete fixtures for evaluation

The oracle fallback below is itself source text (`llm_service.py` lines
105-111); the city, flight and ticket values mirror the fixtures of the
repository's own tests (`test_post_booking_questions.py`). -/

/-- The fallback `next_question` of `LLMService.analyze_flight_booking_message`
(the which-city prompt the gateway answers with on an oracle outage). -/
def llm_fallback_next_question : String :=
  "I'd like to help you book a flight. Which city would you like to fly from?"

/-- The fallback analysis of `LLMService.analyze_flight_booking_message`. -/
def llm_fallback_analysis : LlmAnalysis where
  intent := "flight_booking"
  extracted_data := ⟨none, none, none, none, none, none⟩
  confidence := 1 / 2
  next_question := some llm_fallback_next_question
  reasoning := "Error in Gemini processing, using fallback"

/-- Test fixture: the Delhi city record. -/
def delhiRec : CityRec := { name := "Delhi", iata := "DEL", aliases := ["del", "new delhi"] }

/-- Test fixture: the Dubai city record. -/
def dubaiRec : CityRec := { name := "Dubai", iata := "DXB", aliases := ["dxb"] }

/-- Test fixture: an inventory row DEL → DXB priced 10000. -/
def testFlight1 : FlightB where
  flight_id := "AI915"
  airline := "Air India"
  origin := "DEL"
  destination := "DXB"
  departure_time := "06:00"
  arrival_time := "08:30"
  price := 10000
  currency := "INR"
  duration := "3h 30m"
  aircraft := "Boeing 787"

/-- Test fixture: an inventory row DEL → DXB priced 14000. -/
def testFlight2 : FlightB where
  flight_id := "EK512"
  airline := "Emirates"
  origin := "DEL"
  destination := "DXB"
  departure_time := "11:30"
  arrival_time := "14:15"
  price := 14000
  currency := "INR"
  duration := "3h 45m"
  aircraft := "Airbus A380"

/-- Test fixture: a two-row inventory, deliberately unsorted by price. -/
def testInventory : List FlightB := [testFlight2, testFlight1]

/-- Test fixture: a collaborator record whose parsers find nothing, with the
real passenger-count and yes/no parsers and the real oracle fallback. -/
def testEnv : Env where
  cities_data := [delhiRec, dubaiRec]
  inventory := testInventory
  extractCities := fun _ => []
  extractDate := fun _ => none
  extractPassengerCount := extract_passenger_count
  extractFlightSelection := fun _ => none
  extractPassengerDetails := fun _ => none
  extractSsrRequests := fun _ => []
  isAffirmativeF := is_affirmative
  isNegativeF := is_negative
  analyze := fun _ _ => llm_fallback_analysis
  generateResponse := fun a _ => a.next_question.getD "Where would you like to fly? 😊"

/-- Test fixture: a collaborator record whose city parser always recognizes
Delhi, the stored source city — every destination utterance then hits the
same-city rejection. -/
def sameCityEnv : Env := { testEnv with extractCities := fun _ => [delhiRec] }

/-- Test fixture: a fresh session. -/
def baseSession : Session := newSession "+1234567890" 0

/-- Test fixture: a session waiting for the destination with Delhi stored as
the source. -/
def destSession : Session :=
  { baseSession with
    state := .collect_destination,
    data := { baseSession.data with source_city := some delhiRec } }

/-- Test fixture: a session waiting for the passenger count. -/
def capSession : Session := { baseSession with state := .collect_passengers }

/-- Test fixture: the parsed-ticket payload of the repository's own
post-booking test. -/
def testFlightDetails : FlightDetails where
  airline := "Emirates"
  flight_number := "EK512"
  origin_city := "Delhi"
  origin_airport := "DEL"
  destination_city := "Dubai"
  destination_airport := "DXB"
  departure_date := "2024-08-30"
  departure_time := "11:30"
  arrival_time := "14:15"
  class_of_service := "Business"
  passenger_name := "John Smith"
  booking_reference := "EK12345"
  ticket_price := "₹25,000"
  ticket_price_numeric := 25000
  currency := "INR"

/-- Test fixture: a successfully parsed ticket. -/
def testTicketInfo : TicketInfo := { success := true, flight_details := testFlightDetails }

/-- Test fixture: the same ticket at price 10499 (499 above the best system
price of `testFlight1`). -/
def ticket10499 : TicketInfo :=
  { testTicketInfo with
    flight_details := { testFlightDetails with ticket_price_numeric := 10499 } }

/-- Test fixture: a cached price comparison as the repository's own test
stores it. -/
def testComparisonCtx : PriceComparisonResult :=
  .available 25000 "INR" 14000 11000 44 [] "cheaper"

/-- Test fixture: a session in the terminal state whose context holds the
cached parsed ticket and its price comparison. -/
def completedTicketSession : Session :=
  { baseSession with
    state := .completed,
    parsed_ticket := some testTicketInfo,
    price_comparison := some testComparisonCtx }

/-- Three consecutive turns of one handler against one session, returning the
third reply and the final session. -/
def turn3 (h : Session → String → String × Session) (s : Session)
    (m1 m2 m3 : String) : String × Session :=
  let s1 := (h s m1).2
  let s2 := (h s1 m2).2
  h s2 m3

/-- Test fixture: a booking as `createBookings` issues it from an empty
payload. -/
def witBooking (p : String) : Booking where
  pnr := p
  flight := none
  passengers := []
  contact_email := "e"
  contact_phone := "p"
  special_requests := []
  booking_date := 0
  status := "CONFIRMED"
  ticket_issued := false

/-! ### Helper lemmas -/

/-- Characterization of the boolean date comparison. -/
theorem ltb_iff (a b : PyDate) :
    a.ltb b = true ↔
      (a.year < b.year ∨ (a.year = b.year ∧
        (a.month < b.month ∨ (a.month = b.month ∧ a.day < b.day)))) := by
  unfold PyDate.ltb
  split_ifs with h1 h2 h3 h4 <;> simp [decide_eq_true_eq] <;> omega

/-- Characterization of the negated boolean date comparison. -/
theorem ltb_eq_false_iff (a b : PyDate) :
    a.ltb b = false ↔
      ¬(a.year < b.year ∨ (a.year = b.year ∧
        (a.month < b.month ∨ (a.month = b.month ∧ a.day < b.day)))) := by
  unfold PyDate.ltb
  split_ifs with h1 h2 h3 h4 <;> simp [decide_eq_true_eq] <;> omega

/-- The calendar successor is strictly later. -/
theorem ltb_nextDay (d : PyDate) : d.ltb (nextDay d) = true := by
  unfold nextDay
  split_ifs <;> rw [ltb_iff] <;> simp

/-- Day addition never moves a date into its past. -/
theorem addDays_not_ltb (d : PyDate) (n : Nat) : (addDays d n).ltb d = false := by
  induction n generalizing d with
  | zero => rw [addDays, ltb_eq_false_iff]; omega
  | succ n ih =>
    have h1 := ih (nextDay d)
    have h2 := ltb_nextDay d
    rw [ltb_eq_false_iff] at h1 ⊢
    rw [ltb_iff] at h2
    rw [addDays]
    omega

/-- The second roll of `normalizeParsedDate` never yields a date before today. -/
theorem step2_not_past (today d1 r : PyDate)
    (h : (if PyDate.ltb d1 today then replaceYear d1 (today.year + 1) else some d1) =
      some r) : r.ltb today = false := by
  by_cases hlt : PyDate.ltb d1 today
  · rw [if_pos hlt] at h
    unfold replaceYear at h
    split_ifs at h with hd
    cases h
    rw [ltb_eq_false_iff]
    simp
  · rw [if_neg hlt] at h
    cases h
    exact Bool.eq_false_iff.mpr hlt

/-- The normalized absolute date is never strictly before today. -/
theorem normalizeParsedDate_not_past (today d r : PyDate)
    (h : normalizeParsedDate today d = some r) : r.ltb today = false := by
  unfold normalizeParsedDate at h
  by_cases h1 : d.year < today.year
  · rw [if_pos h1] at h
    cases hrep : replaceYear d today.year with
    | none => rw [hrep] at h; cases h
    | some d1 =>
      rw [hrep] at h
      simp only [] at h
      exact step2_not_past today d1 r h
  · rw [if_neg h1] at h
    simp only [] at h
    exact step2_not_past today d r h

/-- The two roll-forward outcomes for an absolute date from an earlier year:
the date moved to the current year when that is not in the past, or the date
moved one further year ahead. -/
theorem normalize_roll_cases (today d r2 : PyDate) (h1 : d.year < today.year)
    (h : normalizeParsedDate today d = some r2) :
    (r2 = ⟨today.year, d.month, d.day⟩ ∧ r2.ltb today = false) ∨
      r2 = ⟨today.year + 1, d.month, d.day⟩ := by
  unfold normalizeParsedDate at h
  rw [if_pos h1] at h
  cases hrep : replaceYear d today.year with
  | none => rw [hrep] at h; cases h
  | some d1 =>
    rw [hrep] at h
    simp only [] at h
    unfold replaceYear at hrep
    split_ifs at hrep with hd
    · cases hrep
      by_cases hlt : PyDate.ltb ⟨today.year, d.month, d.day⟩ today
      · rw [if_pos hlt] at h
        unfold replaceYear at h
        split_ifs at h with hd2
        cases h
        right
        rfl
      · rw [if_neg hlt] at h
        cases h
        exact Or.inl ⟨rfl, Bool.eq_false_iff.mpr hlt⟩

/-- Every resolved date token yields a date not strictly before today. -/
theorem resolveDateToken_not_past (today : PyDate) (t : DateToken) (r : PyDate)
    (h : resolveDateToken today t = some r) : r.ltb today = false := by
  cases t with
  | todayTok =>
    simp only [resolveDateToken, Option.some.injEq] at h
    subst h
    rw [ltb_eq_false_iff]; omega
  | tomorrowTok =>
    simp only [resolveDateToken, Option.some.injEq] at h
    subst h
    exact addDays_not_ltb today 1
  | nextWeekTok =>
    simp only [resolveDateToken, Option.some.injEq] at h
    subst h
    exact addDays_not_ltb today 7
  | nextMonthTok =>
    simp only [resolveDateToken, Option.some.injEq] at h
    subst h
    exact addDays_not_ltb today 30
  | absolute d => exact normalizeParsedDate_not_past today d r h

/-- The head of a price-sorted list bounds every element's price. -/
theorem sorted_head_price_min {l : List FlightB} (h : List.Pairwise flightLe l) :
    ∀ hd, l.head? = some hd → ∀ f ∈ l, hd.price ≤ f.price := by
  intro hd hh f hf
  cases l with
  | nil => cases hh
  | cons a t =>
    simp only [List.head?_cons, Option.some.injEq] at hh
    subst hh
    rcases List.mem_cons.mp hf with h1 | h2
    · subst h1; exact le_refl _
    · exact (List.pairwise_cons.mp h).1 f h2

/-- The sign characterization of the recommendation expression. -/
theorem recommendationTag_spec (d : Int) :
    (recommendationTag d = "cheaper" ↔ 0 < d) ∧
    (recommendationTag d = "similar" ↔ -500 < d ∧ d ≤ 0) ∧
    (recommendationTag d = "expensive" ↔ d ≤ -500) := by
  unfold recommendationTag
  split_ifs with h1 h2
  · exact ⟨iff_of_true rfl h1, iff_of_false (by decide) (by omega),
      iff_of_false (by decide) (by omega)⟩
  · have h2' := abs_lt.mp h2
    exact ⟨iff_of_false (by decide) (by omega), iff_of_true rfl (by omega),
      iff_of_false (by decide) (by omega)⟩
  · have h2' : ¬(-500 < d ∧ d < 500) := fun hc => h2 (abs_lt.mpr hc)
    exact ⟨iff_of_false (by decide) (by omega), iff_of_false (by decide) (by omega),
      iff_of_true rfl (by omega)⟩

/-! ### The claims -/

/-- C3 (amended): for every price comparison with a numeric result, the
difference is ticket price minus best system price and the recommendation
follows the source's conditional chaining — `cheaper` exactly when the
difference is positive (the positivity test runs first, so a difference of
499 is `cheaper`), `similar` exactly when the difference lies in (-500, 0],
and `expensive` exactly when it is at most -500. -/
theorem C3_price_recommendation (inv : List FlightB) (ti : TicketInfo)
    (origin destination date : String)
    (hs : ti.success = true)
    (hne : search_flights inv origin destination date 1 0 0 ≠ []) :
    ∃ d, (compare_prices_with_system inv ti origin destination date).differenceOf = some d ∧
      d = ti.flight_details.ticket_price_numeric -
          bestSystemPrice (search_flights inv origin destination date 1 0 0) ∧
      (compare_prices_with_system inv ti origin destination date).recommendationOf =
        some (recommendationTag d) ∧
      (recommendationTag d = "cheaper" ↔ 0 < d) ∧
      (recommendationTag d = "similar" ↔ -500 < d ∧ d ≤ 0) ∧
      (recommendationTag d = "expensive" ↔ d ≤ -500) := by
  obtain ⟨f, fs, hsf⟩ : ∃ f fs, search_flights inv origin destination date 1 0 0 = f :: fs := by
    cases hc : search_flights inv origin destination date 1 0 0 with
    | nil => exact absurd hc hne
    | cons f fs => exact ⟨f, fs, rfl⟩
  have hcmp : compare_prices_with_system inv ti origin destination date =
      PriceComparisonResult.available ti.flight_details.ticket_price_numeric
        ti.flight_details.currency (bestSystemPrice (f :: fs))
        (ti.flight_details.ticket_price_numeric - bestSystemPrice (f :: fs))
        (if ti.flight_details.ticket_price_numeric > 0 then
          (((ti.flight_details.ticket_price_numeric - bestSystemPrice (f :: fs) : Int) : Rat) /
            ((ti.flight_details.ticket_price_numeric : Int) : Rat)) * 100
         else 0)
        ((f :: fs).map fun fl => ComparableFlight.mk fl.airline fl.flight_id fl.price
          (strContains (pyLower fl.airline) (pyLower ti.flight_details.airline)))
        (recommendationTag
          (ti.flight_details.ticket_price_numeric - bestSystemPrice (f :: fs))) := by
    unfold compare_prices_with_system
    rw [hs, hsf]
    rfl
  refine ⟨ti.flight_details.ticket_price_numeric - bestSystemPrice (f :: fs), ?_, ?_, ?_,
    (recommendationTag_spec _).1, (recommendationTag_spec _).2.1,
    (recommendationTag_spec _).2.2⟩
  · rw [hcmp]; rfl
  · rw [hsf]
  · rw [hcmp]; rfl

set_option maxHeartbeats 2000000 in
/-- C3 counterexample: a ticket priced 499 above the best system price — the
absolute difference is below 500, yet the recommendation is `cheaper`, not
`similar`, because the source tests positivity first. -/
theorem C3_counterexample_499_is_cheaper :
    (compare_prices_with_system [testFlight1] ticket10499 "DEL" "DXB" "2025-07-15").differenceOf
        = some 499 ∧
    |(499 : Int)| < 500 ∧
    (compare_prices_with_system [testFlight1] ticket10499 "DEL" "DXB" "2025-07-15").recommendationOf
        = some "cheaper" ∧
    "cheaper" ≠ "similar" :=
  ⟨by decide, by decide, by decide, by decide⟩

set_option maxHeartbeats 2000000 in
/-- C3 witness: the amended theorem applied to the concrete repository
fixture (ticket 25000 against best system price 10000). -/
theorem C3_witness :
    ∃ d, (compare_prices_with_system [testFlight1] testTicketInfo "DEL" "DXB" "2025-07-15").differenceOf = some d ∧
      d = testTicketInfo.flight_details.ticket_price_numeric -
          bestSystemPrice (search_flights [testFlight1] "DEL" "DXB" "2025-07-15" 1 0 0) ∧
      (compare_prices_with_system [testFlight1] testTicketInfo "DEL" "DXB" "2025-07-15").recommendationOf =
        some (recommendationTag d) ∧
      (recommendationTag d = "cheaper" ↔ 0 < d) ∧
      (recommendationTag d = "similar" ↔ -500 < d ∧ d ≤ 0) ∧
      (recommendationTag d = "expensive" ↔ d ≤ -500) :=
  C3_price_recommendation [testFlight1] testTicketInfo "DEL" "DXB" "2025-07-15"
    (by decide) (by decide)

/-- C4: whenever `extract_date` returns a date it is never strictly before
today, and an absolute date from an earlier year is rolled to the current
year, then one further year ahead if still past. -/
theorem C4_extract_date_never_past (today : PyDate) (tokens : List DateToken)
    (r : PyDate) (h : extract_date today tokens = some r) :
    r.ltb today = false ∧
    (∀ d r2, d.year < today.year → normalizeParsedDate today d = some r2 →
      (r2 = ⟨today.year, d.month, d.day⟩ ∧ r2.ltb today = false) ∨
        r2 = ⟨today.year + 1, d.month, d.day⟩) := by
  constructor
  · induction tokens with
    | nil => cases h
    | cons t ts ih =>
      unfold extract_date at h
      cases hres : resolveDateToken today t with
      | none => rw [hres] at h; exact ih h
      | some x =>
        rw [hres] at h
        cases h
        exact resolveDateToken_not_past today t r hres
  · intro d r2 hy hn
    exact normalize_roll_cases today d r2 hy hn

/-- C4 witness: parsing a July 15 carrying the stale year 2024 on October 12,
2026 yields July 15, 2027, which is not before today. -/
theorem C4_witness :
    ((⟨2027, 7, 15⟩ : PyDate).ltb ⟨2026, 10, 12⟩ = false) ∧
    extract_date ⟨2026, 10, 12⟩ [DateToken.absolute ⟨2024, 7, 15⟩] = some ⟨2027, 7, 15⟩ :=
  ⟨(C4_extract_date_never_past ⟨2026, 10, 12⟩ [DateToken.absolute ⟨2024, 7, 15⟩]
      ⟨2027, 7, 15⟩ (by decide)).1, by decide⟩

/-- C10: the flight search returns exactly the inventory rows matching the
uppercased route, each with its price adjusted for the passenger mix, in
non-decreasing price order, so the first element of a non-empty result has
the minimum price of the result. -/
theorem C10_search_flights_filter_sorted (inventory : List FlightB)
    (origin destination date : String) (adults children infants : Int) :
    List.Perm (search_flights inventory origin destination date adults children infants)
      ((inventory.filter (routeMatches origin destination)).map
        (adjustFlight adults children infants)) ∧
    List.Pairwise flightLe
      (search_flights inventory origin destination date adults children infants) ∧
    (∀ hd, (search_flights inventory origin destination date adults children infants).head?
        = some hd →
      ∀ f ∈ search_flights inventory origin destination date adults children infants,
        hd.price ≤ f.price) := by
  refine ⟨List.perm_insertionSort _ _, List.sorted_insertionSort _ _, ?_⟩
  exact sorted_head_price_min (List.sorted_insertionSort _ _)

/-- C7: a session is expired exactly when more than the 30-minute timeout has
passed since its last activity, and `get_session` for an absent or expired
session yields a session in the greeting state with all slots at their
defaults. -/
theorem C7_expiry_and_reset (now : Int) (s : Session) (m : List (String × Session))
    (phone : String) :
    (is_expired now s 30 = true ↔ now - s.last_activity > 30 * 60) ∧
    ((lookupSession m phone = none ∨
        (∃ s0, lookupSession m phone = some s0 ∧ is_expired now s0 30 = true)) →
      (get_session now m phone).1.state = ConvState.greeting ∧
        (get_session now m phone).1.data = defaultSessionData) := by
  constructor
  · unfold is_expired
    simp only [decide_eq_true_eq]
    omega
  · intro h
    rcases h with h | ⟨s0, hs0, hexp⟩
    · unfold get_session
      rw [h]
      exact ⟨rfl, rfl⟩
    · unfold get_session
      rw [hs0]
      simp only [hexp]
      exact ⟨rfl, rfl⟩

/-- C7 witness: a session idle for 31 minutes is expired, and `get_session`
on it returns a fresh greeting-state session with default slots. -/
theorem C7_witness :
    (get_session 1860 [("+1234567890", destSession)] "+1234567890").1.state =
        ConvState.greeting ∧
    (get_session 1860 [("+1234567890", destSession)] "+1234567890").1.data =
        defaultSessionData :=
  (C7_expiry_and_reset 1860 destSession [("+1234567890", destSession)] "+1234567890").2
    (Or.inr ⟨destSession, by decide, by decide⟩)

/-- A failing source-collection turn: retry incremented, then either the
escalation or the re-prompt. -/
theorem source_fail_turn (env : Env) (now : Int) (sess : Session) (msg : String)
    (hc : env.extractCities msg = []) :
    handle_source_collection env now sess msg =
      if sess.retry_count + 1 ≥ 3 then
        (dm_human_support_msg, (sess.incrementRetry).setState now ConvState.completed)
      else (dm_source_fail_msg, sess.incrementRetry) := by
  unfold handle_source_collection
  rw [hc]
  rfl

/-- A failing destination-collection turn (no city recognized). -/
theorem destination_fail_turn (env : Env) (now : Int) (sess : Session) (msg : String)
    (hc : env.extractCities msg = []) :
    handle_destination_collection env now sess msg =
      if sess.retry_count + 1 ≥ 3 then
        (dm_human_support_msg, (sess.incrementRetry).setState now ConvState.completed)
      else (dm_destination_fail_msg, sess.incrementRetry) := by
  unfold handle_destination_collection
  rw [hc]
  rfl

/-- A failing date-collection turn. -/
theorem date_fail_turn (env : Env) (now : Int) (sess : Session) (msg : String)
    (hc : env.extractDate msg = none) :
    handle_date_collection env now sess msg =
      if sess.retry_count + 1 ≥ 3 then
        (dm_human_support_msg, (sess.incrementRetry).setState now ConvState.completed)
      else (dm_date_fail_msg, sess.incrementRetry) := by
  unfold handle_date_collection
  rw [hc]
  rfl

/-- A failing passenger-collection turn (non-positive total). -/
theorem passengers_fail_turn (env : Env) (now : Int) (sess : Session) (msg : String)
    (hc : (env.extractPassengerCount msg).total ≤ 0) :
    handle_passenger_collection env now sess msg =
      if sess.retry_count + 1 ≥ 3 then
        (dm_human_support_msg, (sess.incrementRetry).setState now ConvState.completed)
      else (dm_passenger_fail_msg, sess.incrementRetry) := by
  have hc' : (env.extractPassengerCount msg).adults + (env.extractPassengerCount msg).children +
      (env.extractPassengerCount msg).infants ≤ 0 := hc
  unfold handle_passenger_collection
  rw [if_neg (by omega), if_neg (by omega)]
  rfl

/-- A failing selection turn (no selection extracted). -/
theorem selection_fail_turn (supportMsg : String) (env : Env) (now : Int) (sess : Session)
    (msg : String) (hc : env.extractFlightSelection msg = none) :
    handle_flight_selection supportMsg env now sess msg =
      if sess.retry_count + 1 ≥ 3 then
        (supportMsg, (sess.incrementRetry).setState now ConvState.completed)
      else (selection_fail_msg sess.available_flights.length, sess.incrementRetry) := by
  unfold handle_flight_selection
  rw [hc]
  rfl

/-- A failing passenger-details turn (malformed record). -/
theorem details_fail_turn (supportMsg : String) (env : Env) (now : Int) (sess : Session)
    (msg : String) (hc : env.extractPassengerDetails msg = none) :
    handle_passenger_details_collection supportMsg env now sess msg =
      if sess.retry_count + 1 ≥ 3 then
        (supportMsg, (sess.incrementRetry).setState now ConvState.completed)
      else (details_fail_msg, sess.incrementRetry) := by
  unfold handle_passenger_details_collection
  rw [hc]
  rfl

/-- Chaining three failing turns from a zero retry counter: the first two
re-prompt, the third escalates. -/
theorem turn3_escalates (now : Int) (supportMsg failMsg1 failMsg2 : String)
    (h : Session → String → String × Session) (sess : Session) (m1 m2 m3 : String)
    (h1 : h sess m1 = (failMsg1, sess.incrementRetry))
    (h2 : h sess.incrementRetry m2 = (failMsg2, sess.incrementRetry.incrementRetry))
    (h3 : h sess.incrementRetry.incrementRetry m3 =
      (supportMsg,
        (sess.incrementRetry.incrementRetry.incrementRetry).setState now ConvState.completed)) :
    turn3 h sess m1 m2 m3 =
      (supportMsg,
        (sess.incrementRetry.incrementRetry.incrementRetry).setState now ConvState.completed) := by
  unfold turn3
  rw [h1]
  simp only []
  rw [h2]
  simp only []
  rw [h3]

/-- What `draw_pnr` guarantees: the drawn PNR is fresh and comes from the
supply, and the remaining supply is part of the original. -/
theorem draw_pnr_spec (keys : List String) :
    ∀ supply p rest, draw_pnr keys supply = some (p, rest) →
      keys.contains p = false ∧ p ∈ supply ∧ ∀ x ∈ rest, x ∈ supply := by
  intro supply
  induction supply with
  | nil => intro p rest h; cases h
  | cons a as ih =>
    intro p rest h
    unfold draw_pnr at h
    by_cases hc : keys.contains a = true
    · rw [if_pos hc] at h
      obtain ⟨h1, h2, h3⟩ := ih p rest h
      exact ⟨h1, List.mem_cons_of_mem a h2, fun x hx => List.mem_cons_of_mem a (h3 x hx)⟩
    · rw [if_neg hc] at h
      cases h
      exact ⟨Bool.eq_false_iff.mpr hc, List.mem_cons_self a as,
        fun x hx => List.mem_cons_of_mem a hx⟩

/-- A key present in a pair-consistent ledger resolves to a booking carrying
that key as its PNR. -/
theorem lookupBooking_of_mem_keys :
    ∀ (m : List (String × Booking)) (p : String), p ∈ bookingKeys m →
      (∀ kv ∈ m, kv.2.pnr = kv.1) →
      ∃ b, lookupBooking m p = some b ∧ b.pnr = p := by
  intro m
  induction m with
  | nil => intro p hp _; simp [bookingKeys] at hp
  | cons kv tl ih =>
    intro p hp hok
    by_cases he : (kv.1 == p) = true
    · refine ⟨kv.2, ?_, ?_⟩
      · simp [lookupBooking, List.find?_cons, he]
      · rw [hok kv (List.mem_cons_self kv tl)]
        exact eq_of_beq he
    · simp only [bookingKeys, List.map_cons, List.mem_cons] at hp
      rcases hp with h1 | h2
      · subst h1
        exact absurd (beq_self_eq_true kv.1) he
      · obtain ⟨b, hb1, hb2⟩ := ih p h2 (fun x hx => hok x (List.mem_cons_of_mem kv hx))
        refine ⟨b, ?_, hb2⟩
        simpa [lookupBooking, List.find?_cons, he] using hb1

/-- The ledger invariants across a run of `create_booking` calls: the issued
PNRs are counted, pairwise fresh, drawn from the supply, and each ends up a
key of the pair-consistent final ledger, whose keys extend the initial ones. -/
theorem createBookings_spec (flight : Option FlightB) (passengers : List PassengerRec)
    (email phone : String) (now : Int) :
    ∀ (n : Nat) (m : List (String × Booking)) (supply : List String)
      (pnrs : List String) (m2 : List (String × Booking)) (supply2 : List String),
      (bookingKeys m).Nodup →
      (∀ kv ∈ m, kv.2.pnr = kv.1) →
      createBookings flight passengers email phone now n m supply =
        some (pnrs, m2, supply2) →
      pnrs.length = n ∧ pnrs.Nodup ∧
      (∀ p ∈ pnrs, p ∉ bookingKeys m) ∧
      (∀ p ∈ pnrs, p ∈ supply) ∧
      (bookingKeys m2).Nodup ∧ (∀ kv ∈ m2, kv.2.pnr = kv.1) ∧
      (∀ p ∈ pnrs, p ∈ bookingKeys m2) ∧
      (∀ k ∈ bookingKeys m, k ∈ bookingKeys m2) := by
  intro n
  induction n with
  | zero =>
    intro m supply pnrs m2 supply2 hnd hok h
    unfold createBookings at h
    cases h
    exact ⟨rfl, List.nodup_nil, by simp, by simp, hnd, hok, by simp, fun k hk => hk⟩
  | succ n ih =>
    intro m supply pnrs m2 supply2 hnd hok h
    unfold createBookings at h
    cases hcb : create_booking m supply flight passengers email phone now with
    | none => rw [hcb] at h; cases h
    | some t =>
      obtain ⟨b, m1, supply1⟩ := t
      rw [hcb] at h
      simp only [] at h
      cases hrec : createBookings flight passengers email phone now n m1 supply1 with
      | none => rw [hrec] at h; cases h
      | some t2 =>
        obtain ⟨pnrs1, m2x, supply2x⟩ := t2
        rw [hrec] at h
        simp only [Option.some.injEq, Prod.mk.injEq] at h
        obtain ⟨hpn, hm2, hsup2⟩ := h
        subst hpn
        subst hm2
        subst hsup2
        unfold create_booking at hcb
        cases hdraw : draw_pnr (bookingKeys m) supply with
        | none => rw [hdraw] at hcb; cases hcb
        | some pr =>
          obtain ⟨p, rest⟩ := pr
          rw [hdraw] at hcb
          simp only [Option.some.injEq, Prod.mk.injEq] at hcb
          obtain ⟨hb, hm1, hs1⟩ := hcb
          subst hb
          subst hm1
          subst hs1
          obtain ⟨hfresh, hpsup, hrest⟩ := draw_pnr_spec (bookingKeys m) supply p rest hdraw
          have hpnot : p ∉ bookingKeys m := by simpa using hfresh
          have hkeys1 : bookingKeys ((p,
              { pnr := p, flight := flight, passengers := passengers,
                contact_email := email, contact_phone := phone, special_requests := [],
                booking_date := now, status := "CONFIRMED",
                ticket_issued := false : Booking }) :: m) =
              p :: bookingKeys m := rfl
          have hok1 : ∀ kv ∈ (p,
              { pnr := p, flight := flight, passengers := passengers,
                contact_email := email, contact_phone := phone, special_requests := [],
                booking_date := now, status := "CONFIRMED",
                ticket_issued := false : Booking }) :: m, kv.2.pnr = kv.1 := by
            intro kv hkv
            rcases List.mem_cons.mp hkv with h1 | h2
            · rw [h1]
            · exact hok kv h2
          obtain ⟨i1, i2, i3, i4, i5, i6, i7, i8⟩ :=
            ih _ rest pnrs1 m2x supply2x
              (by rw [hkeys1]; exact List.nodup_cons.mpr ⟨hpnot, hnd⟩) hok1 hrec
          refine ⟨by simp [i1], ?_, ?_, ?_, i5, i6, ?_, ?_⟩
          · refine List.nodup_cons.mpr ⟨?_, i2⟩
            intro hp1
            have hni := i3 _ hp1
            rw [hkeys1] at hni
            exact hni (List.mem_cons_self _ _)
          · intro q hq
            rcases List.mem_cons.mp hq with h1 | h2
            · rw [h1]; exact hpnot
            · intro hqm
              have hni := i3 q h2
              rw [hkeys1] at hni
              exact hni (List.mem_cons_of_mem p hqm)
          · intro q hq
            rcases List.mem_cons.mp hq with h1 | h2
            · rw [h1]; exact hpsup
            · exact hrest q (i4 q h2)
          · intro q hq
            rcases List.mem_cons.mp hq with h1 | h2
            · subst h1
              refine i8 q ?_
              rw [hkeys1]
              exact List.mem_cons_self _ _
            · exact i7 q h2
          · intro k hk
            refine i8 k ?_
            rw [hkeys1]
            exact List.mem_cons_of_mem p hk

/-- C8: fresh-ledger booking runs issue pairwise-distinct six-character PNRs
and store each booking under its own PNR key, even when the generator
produces collisions — the regeneration loop retries until the PNR is not
already a key. -/
theorem C8_pnrs_distinct_and_stored (flight : Option FlightB)
    (passengers : List PassengerRec) (email phone : String) (now : Int) (n : Nat)
    (supply pnrs : List String) (m2 : List (String × Booking)) (supply2 : List String)
    (hrun : createBookings flight passengers email phone now n [] supply =
      some (pnrs, m2, supply2))
    (hlen : ∀ s ∈ supply, s.length = 6) :
    pnrs.length = n ∧ pnrs.Nodup ∧ (∀ p ∈ pnrs, p.length = 6) ∧
    (∀ p ∈ pnrs, ∃ b, lookupBooking m2 p = some b ∧ b.pnr = p) := by
  obtain ⟨h1, h2, _, h4, _, h6, h7, _⟩ :=
    createBookings_spec flight passengers email phone now n [] supply pnrs m2 supply2
      (by simp [bookingKeys]) (by simp) hrun
  exact ⟨h1, h2, fun p hp => hlen p (h4 p hp),
    fun p hp => lookupBooking_of_mem_keys m2 p (h7 p hp) h6⟩

/-- C8 witness: two bookings from a generator forced to repeat `AAAAAA`; the
regeneration loop skips the collision and both PNRs are distinct, six
characters long, and stored under their own keys. -/
theorem C8_witness :
    (["AAAAAA", "BBBBBB"] : List String).length = 2 ∧
    (["AAAAAA", "BBBBBB"] : List String).Nodup ∧
    (∀ p ∈ (["AAAAAA", "BBBBBB"] : List String), p.length = 6) ∧
    (∀ p ∈ (["AAAAAA", "BBBBBB"] : List String), ∃ b,
      lookupBooking [("BBBBBB", witBooking "BBBBBB"), ("AAAAAA", witBooking "AAAAAA")] p =
        some b ∧ b.pnr = p) :=
  C8_pnrs_distinct_and_stored none [] "e" "p" 0 2 ["AAAAAA", "AAAAAA", "BBBBBB"]
    ["AAAAAA", "BBBBBB"] [("BBBBBB", witBooking "BBBBBB"), ("AAAAAA", witBooking "AAAAAA")]
    [] (by decide) (by decide)

/-- C5: at the CollectPassengers state, an extraction totalling more than
nine passengers is rejected on every such turn — the reply is the cap
message and the only session change is the retry increment, so the slots and
the state are untouched. -/
theorem C5_passenger_cap (env : Env) (now : Int) (sess : Session) (message : String)
    (hst : sess.state = ConvState.collect_passengers)
    (htot : (env.extractPassengerCount message).total > 9) :
    handle_passenger_collection env now sess message =
      (passenger_cap_msg, sess.incrementRetry) ∧
    (sess.incrementRetry).data = sess.data ∧
    (sess.incrementRetry).state = ConvState.collect_passengers := by
  have htot' : (env.extractPassengerCount message).adults +
      (env.extractPassengerCount message).children +
      (env.extractPassengerCount message).infants > 9 := htot
  refine ⟨?_, rfl, hst ▸ rfl⟩
  unfold handle_passenger_collection
  rw [if_pos htot']

/-- C5 witness: the cap theorem at the concrete utterance "10 adults" against
the real passenger-count parser. -/
theorem C5_witness :
    handle_passenger_collection testEnv 0 capSession "10 adults" =
      (passenger_cap_msg, capSession.incrementRetry) :=
  (C5_passenger_cap testEnv 0 capSession "10 adults" (by decide) (by decide)).1

/-- C2 (amended): three consecutive could-not-understand failures from a zero
retry counter escalate on the third turn to the human-support message and
the Completed state, in each of the six collection states; the destination
same-city and unknown-route rejections and the passenger-cap rejection
increment the counter without this check (see the counterexample). -/
theorem C2_amended_third_failure_escalates (env : Env) (now : Int) (m1 m2 m3 : String) :
    (∀ sess : Session, sess.retry_count = 0 →
      env.extractCities m1 = [] → env.extractCities m2 = [] → env.extractCities m3 = [] →
      turn3 (handle_source_collection env now) sess m1 m2 m3 =
        (dm_human_support_msg,
          (sess.incrementRetry.incrementRetry.incrementRetry).setState now
            ConvState.completed)) ∧
    (∀ sess : Session, sess.retry_count = 0 →
      env.extractCities m1 = [] → env.extractCities m2 = [] → env.extractCities m3 = [] →
      turn3 (handle_destination_collection env now) sess m1 m2 m3 =
        (dm_human_support_msg,
          (sess.incrementRetry.incrementRetry.incrementRetry).setState now
            ConvState.completed)) ∧
    (∀ sess : Session, sess.retry_count = 0 →
      env.extractDate m1 = none → env.extractDate m2 = none → env.extractDate m3 = none →
      turn3 (handle_date_collection env now) sess m1 m2 m3 =
        (dm_human_support_msg,
          (sess.incrementRetry.incrementRetry.incrementRetry).setState now
            ConvState.completed)) ∧
    (∀ sess : Session, sess.retry_count = 0 →
      (env.extractPassengerCount m1).total ≤ 0 → (env.extractPassengerCount m2).total ≤ 0 →
      (env.extractPassengerCount m3).total ≤ 0 →
      turn3 (handle_passenger_collection env now) sess m1 m2 m3 =
        (dm_human_support_msg,
          (sess.incrementRetry.incrementRetry.incrementRetry).setState now
            ConvState.completed)) ∧
    (∀ sess : Session, sess.retry_count = 0 →
      env.extractFlightSelection m1 = none → env.extractFlightSelection m2 = none →
      env.extractFlightSelection m3 = none →
      turn3 (handle_flight_selection dm_human_support_msg env now) sess m1 m2 m3 =
        (dm_human_support_msg,
          (sess.incrementRetry.incrementRetry.incrementRetry).setState now
            ConvState.completed)) ∧
    (∀ sess : Session, sess.retry_count = 0 →
      env.extractPassengerDetails m1 = none → env.extractPassengerDetails m2 = none →
      env.extractPassengerDetails m3 = none →
      turn3 (handle_passenger_details_collection dm_human_support_msg env now) sess
          m1 m2 m3 =
        (dm_human_support_msg,
          (sess.incrementRetry.incrementRetry.incrementRetry).setState now
            ConvState.completed)) := by
  refine ⟨?_, ?_, ?_, ?_, ?_, ?_⟩
  · intro sess hr h1 h2 h3
    refine turn3_escalates now dm_human_support_msg dm_source_fail_msg dm_source_fail_msg
      _ sess m1 m2 m3 ?_ ?_ ?_
    · rw [source_fail_turn env now sess m1 h1, if_neg (by omega)]
    · have e1 : (sess.incrementRetry).retry_count = sess.retry_count + 1 := rfl
      rw [source_fail_turn env now sess.incrementRetry m2 h2, if_neg (by omega)]
    · have e2 : (sess.incrementRetry.incrementRetry).retry_count = sess.retry_count + 1 + 1 := rfl
      rw [source_fail_turn env now sess.incrementRetry.incrementRetry m3 h3,
        if_pos (by omega)]
  · intro sess hr h1 h2 h3
    refine turn3_escalates now dm_human_support_msg dm_destination_fail_msg
      dm_destination_fail_msg _ sess m1 m2 m3 ?_ ?_ ?_
    · rw [destination_fail_turn env now sess m1 h1, if_neg (by omega)]
    · have e1 : (sess.incrementRetry).retry_count = sess.retry_count + 1 := rfl
      rw [destination_fail_turn env now sess.incrementRetry m2 h2, if_neg (by omega)]
    · have e2 : (sess.incrementRetry.incrementRetry).retry_count = sess.retry_count + 1 + 1 := rfl
      rw [destination_fail_turn env now sess.incrementRetry.incrementRetry m3 h3,
        if_pos (by omega)]
  · intro sess hr h1 h2 h3
    refine turn3_escalates now dm_human_support_msg dm_date_fail_msg dm_date_fail_msg
      _ sess m1 m2 m3 ?_ ?_ ?_
    · rw [date_fail_turn env now sess m1 h1, if_neg (by omega)]
    · have e1 : (sess.incrementRetry).retry_count = sess.retry_count + 1 := rfl
      rw [date_fail_turn env now sess.incrementRetry m2 h2, if_neg (by omega)]
    · have e2 : (sess.incrementRetry.incrementRetry).retry_count = sess.retry_count + 1 + 1 := rfl
      rw [date_fail_turn env now sess.incrementRetry.incrementRetry m3 h3, if_pos (by omega)]
  · intro sess hr h1 h2 h3
    refine turn3_escalates now dm_human_support_msg dm_passenger_fail_msg
      dm_passenger_fail_msg _ sess m1 m2 m3 ?_ ?_ ?_
    · rw [passengers_fail_turn env now sess m1 h1, if_neg (by omega)]
    · have e1 : (sess.incrementRetry).retry_count = sess.retry_count + 1 := rfl
      rw [passengers_fail_turn env now sess.incrementRetry m2 h2, if_neg (by omega)]
    · have e2 : (sess.incrementRetry.incrementRetry).retry_count = sess.retry_count + 1 + 1 := rfl
      rw [passengers_fail_turn env now sess.incrementRetry.incrementRetry m3 h3,
        if_pos (by omega)]
  · intro sess hr h1 h2 h3
    refine turn3_escalates now dm_human_support_msg
      (selection_fail_msg sess.available_flights.length)
      (selection_fail_msg (sess.incrementRetry).available_flights.length)
      _ sess m1 m2 m3 ?_ ?_ ?_
    · rw [selection_fail_turn dm_human_support_msg env now sess m1 h1, if_neg (by omega)]
    · have e1 : (sess.incrementRetry).retry_count = sess.retry_count + 1 := rfl
      rw [selection_fail_turn dm_human_support_msg env now sess.incrementRetry m2 h2,
        if_neg (by omega)]
    · have e2 : (sess.incrementRetry.incrementRetry).retry_count = sess.retry_count + 1 + 1 := rfl
      rw [selection_fail_turn dm_human_support_msg env now
        sess.incrementRetry.incrementRetry m3 h3, if_pos (by omega)]
  · intro sess hr h1 h2 h3
    refine turn3_escalates now dm_human_support_msg details_fail_msg details_fail_msg
      _ sess m1 m2 m3 ?_ ?_ ?_
    · rw [details_fail_turn dm_human_support_msg env now sess m1 h1, if_neg (by omega)]
    · have e1 : (sess.incrementRetry).retry_count = sess.retry_count + 1 := rfl
      rw [details_fail_turn dm_human_support_msg env now sess.incrementRetry m2 h2,
        if_neg (by omega)]
    · have e2 : (sess.incrementRetry.incrementRetry).retry_count = sess.retry_count + 1 + 1 := rfl
      rw [details_fail_turn dm_human_support_msg env now
        sess.incrementRetry.incrementRetry m3 h3, if_pos (by omega)]

/-- C2 counterexample: three consecutive same-city rejections at
CollectDestination — each a validation failure counted by the retry counter —
yet the third reply is still the same-city rejection, not the human-support
escalation, and the state remains CollectDestination. -/
theorem C2_counterexample_same_city_no_escalation :
    (turn3 (handle_destination_collection sameCityEnv 0) destSession
      "Delhi" "Delhi" "Delhi").1 = same_city_msg ∧
    (turn3 (handle_destination_collection sameCityEnv 0) destSession
      "Delhi" "Delhi" "Delhi").2.state = ConvState.collect_destination ∧
    (turn3 (handle_destination_collection sameCityEnv 0) destSession
      "Delhi" "Delhi" "Delhi").2.retry_count = 3 ∧
    same_city_msg ≠ dm_human_support_msg :=
  ⟨by decide, by decide, by decide, by decide⟩

/-- C2 witness: the amended theorem at the concrete collaborator whose city
parser finds nothing, from a fresh source-collection session. -/
theorem C2_witness :
    turn3 (handle_source_collection testEnv 0) baseSession "x1" "x2" "x3" =
      (dm_human_support_msg,
        (baseSession.incrementRetry.incrementRetry.incrementRetry).setState 0
          ConvState.completed) :=
  (C2_amended_third_failure_escalates testEnv 0 "x1" "x2" "x3").1 baseSession rfl rfl rfl rfl

/-- C6 (amended): an explicit `N adult` extraction survives to the returned
adult count only when no later write overrides it — no `N passenger/people/
pax` pattern fires, no solo-travel phrase occurs, and the message contains
none of the words two/three/four nor the digit substrings 2/3/4 that the
unconditional final keyword check of lines 200-208 reacts to. -/
theorem C6_amended_explicit_pattern_survives (message : String) (n : Nat)
    (hadult : findNumPattern "adult" (pyLower message) = some n)
    (hpass : findNumPattern "passenger" (pyLower message) = none)
    (hpeople : findNumPattern "people" (pyLower message) = none)
    (hpax : findNumPattern "pax" (pyLower message) = none)
    (hjust : strContains (pyLower message) "just me" = false)
    (honly : strContains (pyLower message) "only me" = false)
    (hmyself : strContains (pyLower message) "myself" = false)
    (htwo : strContains (pyLower message) "two" = false)
    (hd2 : strContains message "2" = false)
    (hthree : strContains (pyLower message) "three" = false)
    (hd3 : strContains message "3" = false)
    (hfour : strContains (pyLower message) "four" = false)
    (hd4 : strContains message "4" = false) :
    (extract_passenger_count message).adults = (n : Int) := by
  simp only [extract_passenger_count]
  rw [hadult, hpass, hpeople, hpax, hjust, honly, hmyself, htwo, hd2, hthree, hd3,
    hfour, hd4]
  cases hchild : findNumPattern "child" (pyLower message) with
  | none =>
    cases hinf : findNumPattern "infant" (pyLower message) with
    | none => simp
    | some k => simp
  | some k =>
    cases hinf : findNumPattern "infant" (pyLower message) with
    | none => simp
    | some k2 => simp

/-- C6 counterexample: "3 adults and 2 children" matches the explicit pattern
`3 adult`, yet the returned adult count is 2 — the unconditional digit-
substring check fires on the `2` of `2 children` and silently overrides the
explicit extraction. -/
theorem C6_counterexample_keyword_overrides_pattern :
    findNumPattern "adult" (pyLower "3 adults and 2 children") = some 3 ∧
    extract_passenger_count "3 adults and 2 children" =
      { adults := 2, children := 2, infants := 0 } ∧
    (2 : Int) ≠ (3 : Int) :=
  ⟨by decide, by decide, by decide⟩

/-- C6 witness: the amended theorem at "5 adults", whose digits avoid the
override substrings, so the explicit count 5 survives. -/
theorem C6_witness : (extract_passenger_count "5 adults").adults = (5 : Int) :=
  C6_amended_explicit_pattern_survives "5 adults" 5 (by decide) (by decide) (by decide)
    (by decide) (by decide) (by decide) (by decide) (by decide) (by decide) (by decide)
    (by decide) (by decide) (by decide)

/-- The cleanup sweep leaves no corrupt and no expired entry behind. -/
theorem cleanup_removes_corrupt_and_expired (now : Int) :
    ∀ st : List (String × TicketFile), ∀ kv ∈ (cleanup_expired_tickets now st).2,
      kv.2 ≠ TicketFile.corrupt ∧
      ∀ rec0, kv.2 = TicketFile.valid rec0 → ¬now > rec0.expires_at := by
  intro st
  induction st with
  | nil => intro kv hkv; simp [cleanup_expired_tickets] at hkv
  | cons hd tl ih =>
    obtain ⟨k, f⟩ := hd
    intro kv hkv
    unfold cleanup_expired_tickets at hkv
    rcases hcl : cleanup_expired_tickets now tl with ⟨c, rest2⟩
    rw [hcl] at hkv ih
    simp only [] at hkv
    cases f with
    | corrupt => exact ih kv hkv
    | valid rec0 =>
      simp only [] at hkv
      by_cases hexp : now > rec0.expires_at
      · rw [if_pos hexp] at hkv
        exact ih kv hkv
      · rw [if_neg hexp] at hkv
        rcases List.mem_cons.mp hkv with h1 | h2
        · subst h1
          refine ⟨by simp, ?_⟩
          intro rec1 heq
          cases heq
          exact hexp
        · exact ih kv h2

/-- C9 (amended): a read of a corrupt ticket-cache record is a cache miss
that leaves the store unchanged — the corrupt entry is *not* removed by the
read; corrupt (and expired) entries are removed only by the separate
`cleanup_expired_tickets` sweep. -/
theorem C9_corrupt_read_miss_store_unchanged (now : Int)
    (st : List (String × TicketFile)) (phone : String) :
    (lookupTicketFile st (clean_phone phone) = some TicketFile.corrupt →
      get_ticket_data now st phone = (none, st)) ∧
    (∀ kv ∈ (cleanup_expired_tickets now st).2,
      kv.2 ≠ TicketFile.corrupt ∧
      ∀ rec0, kv.2 = TicketFile.valid rec0 → ¬now > rec0.expires_at) := by
  constructor
  · intro h
    unfold get_ticket_data
    simp only []
    rw [h]
  · exact cleanup_removes_corrupt_and_expired now st

/-- C9 counterexample: a store holding one corrupt record; the read returns a
miss but the corrupt entry is still present in the store afterwards, against
the claim that it is removed as part of handling that read. -/
theorem C9_counterexample_corrupt_entry_not_removed :
    get_ticket_data 0 [("123", TicketFile.corrupt)] "123" =
      (none, [("123", TicketFile.corrupt)]) ∧
    lookupTicketFile (get_ticket_data 0 [("123", TicketFile.corrupt)] "123").2 "123" =
      some TicketFile.corrupt :=
  ⟨by decide, by decide⟩

/-- C9 witness: the amended theorem's read clause at a concrete corrupt store
and an un-normalized phone number. -/
theorem C9_witness :
    get_ticket_data 5 [("777", TicketFile.corrupt)] "+7 7-7" =
      (none, [("777", TicketFile.corrupt)]) :=
  (C9_corrupt_read_miss_store_unchanged 5 [("777", TicketFile.corrupt)] "+7 7-7").1
    (by decide)

/-- C1 (code evaluation at the failing input): in the Completed state with a
cached parsed ticket and price comparison, the utterance "compare prices" is
the price-comparison ticket action — `_detect_ticket_action` classifies it so
— but the dispatch of `process_message` evaluates the missing enumeration
member `ConversationState.COLLECT_OFFICE_ID` before reaching the Completed
branch, raising `AttributeError`; the top-level handler answers with the
generic something-went-wrong reply instead of a price-comparison response. -/
theorem C1_completed_compare_prices_hits_enum_bug :
    (llm_process_message testEnv 0 none [] [] completedTicketSession "compare prices").1 =
      llm_generic_error ∧
    (llm_process_message testEnv 0 none [] [] completedTicketSession
      "compare prices").2.1.state = ConvState.completed ∧
    detect_ticket_action "compare prices" = some TicketAction.compare_prices ∧
    llm_generic_error ≠ llm_fallback_next_question :=
  ⟨by decide, by decide, by decide, by decide⟩

end FlightBot
